import Mathlib

/-!
Verification of the order-identity reconciliation engine of the `adapters`
repository (Zerodha and Motilal broker adapters bridging the Blitz bus).

The Python sources are shallowly embedded: dictionaries become association
lists with Python-dict update semantics, payloads become structures with
`Option` fields (a `none` field models an absent key), prices are rationals,
quantities are integers, and statements that can raise are modelled with an
explicit exception-carrying result so that the partially mutated state at the
raise point is preserved, exactly as CPython leaves mutable dicts mutated when
a later statement throws.
-/

namespace Adapters

/-- Python-dict lookup on an association list: first binding wins
(`d.get(k)`, returning `None` as `none` on a miss). -/
def dget {α : Type} : List (String × α) → String → Option α
  | [], _ => none
  | (k', v') :: rest, k => if k' = k then some v' else dget rest k

/-- Python-dict store `d[k] = v`: replace the existing binding in place,
otherwise append a new binding (CPython preserves insertion order). -/
def dput {α : Type} : List (String × α) → String → α → List (String × α)
  | [], k, v => [(k, v)]
  | (k', v') :: rest, k, v =>
    if k' = k then (k, v) :: rest else (k', v') :: dput rest k v




/-- Keys of an association list (for the no-duplicates invariant). -/
def dkeys {α : Type} (m : List (String × α)) : List String := m.map Prod.fst




/-- Python `str(x)` for an optional string (absent values print as "None"). -/
def pyStr : Option String → String
  | none => "None"
  | some s => s

/-- ASCII whitespace for `str.strip()`. -/
def pySpace (c : Char) : Bool := c = ' ' || c = '\t' || c = '\n' || c = '\r'

/-- Python `str.upper()` (over the underlying character list, so that the
kernel can evaluate it on literals). -/
def pyUpper (s : String) : String := ⟨s.data.map Char.toUpper⟩

/-- Python `str.lower()`. -/
def pyLower (s : String) : String := ⟨s.data.map Char.toLower⟩

/-- Python `str.strip()`. -/
def pyStrip (s : String) : String :=
  ⟨((s.data.dropWhile pySpace).reverse.dropWhile pySpace).reverse⟩

/-- Python `str.capitalize()`: first character upper-cased, rest lower-cased. -/
def pyCapitalize (s : String) : String :=
  match s.data with
  | [] => ""
  | c :: rest => ⟨c.toUpper :: rest.map Char.toLower⟩

/-- Substring occurrence, for Python's `needle in haystack`. -/
def hasSub : List Char → List Char → Bool
  | _, [] => true
  | [], _ => false
  | c :: rest, sub => sub.isPrefixOf (c :: rest) || hasSub rest sub

/-- Python `needle in haystack` on strings. -/
def strContains (haystack needle : String) : Bool := hasSub haystack.data needle.data

/-!
## Identity recording (C8)

`handle_place_order` success path, `src/Motilal/motilal_adapter.py` lines
822-826 (and the identical shape in `src/Zerodha/zerodha_adapter.py` lines
551-557):

    self.blitz_to_motilal[blitz_id] = str(order_id)
    self.motilal_to_blitz[str(order_id)] = blitz_id
    if self.websocket:
        self.websocket.order_id_mapper[str(order_id)] = blitz_id

`order_id_mapper` aliases the adapter's `motilal_to_blitz` dict (it is passed
by reference in `_start_websocket`), so the third statement repeats the
second write on the same dict.
-/

structure IdentStore where
  blitzToBroker : List (String × String)
  brokerToBlitz : List (String × String)
deriving Repr, DecidableEq

def recordPlacement (s : IdentStore) (localId brokerId : String) : IdentStore :=
  { blitzToBroker := dput s.blitzToBroker localId brokerId
    brokerToBlitz := dput (dput s.brokerToBlitz brokerId localId) brokerId localId }

def lookupBroker (s : IdentStore) (localId : String) : Option String :=
  dget s.blitzToBroker localId

def lookupLocal (s : IdentStore) (brokerId : String) : Option String :=
  dget s.brokerToBlitz brokerId

/-!
## Motilal data model

`src/Motilal/motilal_mapper.py` and the order-update path of
`src/Motilal/motilal_websocket.py` (`_on_message`). Broker payloads are JSON
dicts; absent keys are `none`.
-/

/-- Python truthiness for an optional string (`None` and `""` are falsy). -/
def optTruthy (o : Option String) : Bool := o.getD "" ≠ ""

/-- One Motilal websocket/order-book JSON payload (keys read by the code). -/
structure MPayload where
  status : Option String := none
  message : Option String := none
  errorcode : Option String := none
  uniqueorderid : Option String := none
  tag : Option String := none
  orderstatus : Option String := none
  symboltoken : Option Int := none
  exchange : Option String := none
  orderid : Option String := none
  executionid : Option String := none
  ordertype : Option String := none
  buyorsell : Option String := none
  producttype : Option String := none
  orderqty : Option Int := none
  totalqtyremaining : Option Int := none
  qtytradedtoday : Option Int := none
  averageprice : Option ℚ := none
  orderduration : Option String := none
  disclosedqty : Option Int := none
  entrydatetime : Option String := none
  lastmodifiedtime : Option String := none
  triggerprice : Option ℚ := none
  errorField : Option String := none
  clientid : Option String := none
  messageTypeField : Option String := none
  actionField : Option String := none
deriving Repr, DecidableEq

/-- Cached Blitz request data (`blitz_order_cache` values): the fields the
mapper and the resync loop read or write on it. -/
structure CachedReq where
  blitzAppOrderID : Option String := none
  exchangeClientID : Option String := none
  lastModifiedDateTime : Option String := none
deriving Repr, DecidableEq

instance : Inhabited CachedReq := ⟨{}⟩

/-- The OrderLog fields assigned by `MotilalMapper.map_order`. -/
structure MOrderLog where
  exchangeInstrumentID : Int := 0
  exchangeSegment : Option String := none
  blitzAppOrderID : Option String := none
  exchangeOrderID : Option String := none
  executionID : Option String := none
  orderType : Option String := none
  orderSide : String := ""
  productType : Option String := none
  orderStatus : Option String := none
  orderQuantity : Int := 0
  leavesQuantity : Int := 0
  lastTradedQuantity : Int := 0
  cumulativeQuantity : Int := 0
  orderAverageTradedPrice : ℚ := 0
  timeInForce : Option String := none
  orderDisclosedQuantity : Int := 0
  orderGeneratedDateTime : Option String := none
  exchangeTransactTime : Option String := none
  lastUpdateDateTime : Option String := none
  lastExecutionTransactTime : Option String := none
  lastTradedPrice : ℚ := 0
  orderStopPrice : ℚ := 0
  cancelRejectReason : Option String := none
  account : Option String := none
  exchangeClientID : Option String := none
deriving Repr, DecidableEq

/-- `MotilalMapper.map_status` (motilal_mapper.py lines 53-96). Python's
`str(action)` renders `None` as the string "None", so a consumed/absent
pending action falls through every action-specific branch. -/
def mapStatus (status : Option String) (action : Option String) : Option String :=
  match status with
  | none => none
  | some s0 =>
    if s0 = "" then none
    else
      let s := pyUpper (pyStrip s0)
      let a := pyUpper (pyStrip (pyStr action))
      if s = "TRADED" then some "Filled"
      else if s = "PARTIAL" then some "PartiallyFilled"
      else if s = "CANCEL" then some "Cancelled"
      else if a = "PLACE_ORDER" then
        if s = "CONFIRM" then some "New"
        else if s = "REJECTED" then some "Rejected"
        else if s = "ERROR" then some "Rejected"
        else none
      else if a = "MODIFY_ORDER" then
        if s = "CONFIRM" then some "Replaced"
        else if s = "REJECTED" then some "ReplaceRejected"
        else if s = "ERROR" then some "ReplaceRejected"
        else none
      else if a = "CANCEL_ORDER" then
        if s = "CONFIRM" then some "Cancelled"
        else if s = "REJECTED" then some "CancelRejected"
        else if s = "ERROR" then some "CancelRejected"
        else none
      else none

/-- `MotilalMapper.map_exchange_segment` (motilal_mapper.py lines 17-31). -/
def mapExchangeSegment (seg : Option String) : Option String :=
  match seg with
  | none => none
  | some s0 =>
    if s0 = "" then none
    else
      let s := pyUpper s0
      if s = "NSE" then some "NSECM"
      else if s = "NSEFO" then some "NSEFO"
      else if s = "NSECM" then some "NSE"
      else some s

/-- `MotilalMapper.map_producttype` (motilal_mapper.py lines 42-51): the
value is not upper-cased before the table lookup. -/
def mapProducttype (value : Option String) : Option String :=
  match value with
  | none => none
  | some v =>
    if v = "" then none
    else if v = "MIS" then some "NORMAL"
    else if v = "CNC" then some "DELIVERY"
    else if v = "NORMAL" then some "MIS"
    else if v = "DELIVERY" then some "CNC"
    else some v

/-- `MotilalMapper.map_ordertype` (motilal_mapper.py lines 136-145): the
table lookup has no default, so unknown types map to `None`. -/
def mapOrdertype (t : Option String) : Option String :=
  match t with
  | none => none
  | some v =>
    if v = "" then none
    else
      let s := pyUpper v
      if s = "LIMIT" then some "LIMIT"
      else if s = "MARKET" then some "MARKET"
      else if s = "STOPLIMIT" then some "STOPLOSS"
      else if s = "STOPLOSS" then some "STOPLIMIT"
      else none

/-- `MotilalMapper.map_tif_orderlog` (motilal_mapper.py lines 98-114). -/
def mapTifOrderlog (validity : Option String) : Option String :=
  match validity with
  | none => none
  | some v =>
    if v = "" then none
    else
      let s := pyUpper v
      if s = "DAY" then some "GFD"
      else if s = "GTC" then some "GTC"
      else if s = "IOC" then some "IOC"
      else if s = "GTD" then some "GTD"
      else some s

/-- Python runtime errors that the embedded code can raise. -/
inductive PyErr
  | typeError (msg : String)
  | attributeError (msg : String)
deriving Repr, DecidableEq

/-- `MotilalMapper.map_order` (motilal_mapper.py lines 298-359). The only
fallible statement is `o.LastTradedPrice = avg_price / 100` near the end:
when the payload has no "averageprice" key, `avg_price` is `None` and the
division raises `TypeError`. The locally built OrderLog is discarded on the
raise, so the embedding may return the error up front. -/
def mapOrder (data : MPayload) (cashed : Option CachedReq) (action : Option String) :
    Except PyErr MOrderLog :=
  match data.averageprice with
  | none => .error (.typeError "unsupported operand types for /: NoneType and int")
  | some ap =>
    .ok {
      exchangeInstrumentID := data.symboltoken.getD 0
      exchangeSegment := mapExchangeSegment data.exchange
      blitzAppOrderID := cashed.bind (fun c => c.blitzAppOrderID)
      exchangeOrderID := data.orderid
      executionID := data.executionid
      orderType := mapOrdertype data.ordertype
      orderSide := pyCapitalize (data.buyorsell.getD "")
      productType := mapProducttype data.producttype
      orderStatus := mapStatus data.orderstatus action
      orderQuantity := data.orderqty.getD 0
      leavesQuantity := data.totalqtyremaining.getD 0
      lastTradedQuantity := data.qtytradedtoday.getD 0
      cumulativeQuantity := data.qtytradedtoday.getD 0
      orderAverageTradedPrice := ap
      timeInForce := mapTifOrderlog data.orderduration
      orderDisclosedQuantity := data.disclosedqty.getD 0
      orderGeneratedDateTime := data.entrydatetime
      exchangeTransactTime := data.entrydatetime
      lastUpdateDateTime := data.lastmodifiedtime
      lastExecutionTransactTime := data.lastmodifiedtime
      lastTradedPrice := ap / 100
      orderStopPrice := data.triggerprice.getD 0
      cancelRejectReason := data.errorField
      account := data.clientid
      exchangeClientID := cashed.bind (fun c => c.exchangeClientID) }

/-!
## Motilal reconciliation state

One adapter instance owns four shared dicts (`motilal_adapter.py` lines
451-455); the websocket receives `order_id_mapper = self.motilal_to_blitz`,
`blitz_order_cache` and `blitz_order_action` by reference, so a single state
record models all of them.
-/

/-- A message published to the bus. -/
inductive MPub
  | order (log : MOrderLog) (src : String)
  | system (messageType : String) (text : String)
deriving Repr, DecidableEq

structure MState where
  orderIdMapper : List (String × String)
  blitzToMotilal : List (String × String)
  blitzOrderCache : List (String × CachedReq)
  blitzOrderAction : List (String × Option String)
deriving Repr, DecidableEq

def MState.empty : MState :=
  { orderIdMapper := [], blitzToMotilal := [], blitzOrderCache := [],
    blitzOrderAction := [] }

/-- The pending action visible to `blitz_order_action.get(blitz_id)`:
Python's `.get` returns `None` both for an absent key and for a stored
`None`, so the two layers of `Option` collapse. -/
def effAction (st : MState) (blitz : String) : Option String :=
  (dget st.blitzOrderAction blitz).bind id

/-- Order-update tail of `MotilalWebSocket._on_message` (lines 337-396), from
the point where the Blitz id has been resolved. Returns the new state, the
published messages and whether an exception was caught by the per-message
handler. The `map_order` call precedes the cache refresh, so a raise there
(absent "averageprice") leaves cache and pending action untouched. -/
def processOrder (st : MState) (p : MPayload) (blitz : String) :
    MState × List MPub × Bool :=
  let action := effAction st blitz
  let cached := dget st.blitzOrderCache blitz
  match mapOrder p cached action with
  | .error _ => (st, [], true)
  | .ok ol =>
    let cached1 := cached.getD {}
    let cached2 := { cached1 with lastModifiedDateTime := p.lastmodifiedtime }
    let st2 := { st with blitzOrderCache := dput st.blitzOrderCache blitz cached2 }
    if ¬ optTruthy ol.orderStatus then (st2, [], false)
    else
      ({ st2 with blitzOrderAction := dput st2.blitzOrderAction blitz none },
       [MPub.order ol "WEBSOCKET"], false)

/-- Order-update head of `_on_message` (lines 302-334): resolve the Blitz id
through `order_id_mapper`, else auto-learn from the broker-supplied "tag"
(both directions into the same dict), else drop the update. -/
def onMessageOrders (st : MState) (p : MPayload) : MState × List MPub × Bool :=
  if optTruthy p.uniqueorderid then
    let oid := p.uniqueorderid.getD ""
    let blitz0 := dget st.orderIdMapper oid
    if optTruthy blitz0 then processOrder st p (blitz0.getD "")
    else if optTruthy p.tag then
      let tag := p.tag.getD ""
      let st2 := { st with orderIdMapper := dput (dput st.orderIdMapper oid tag) tag oid }
      processOrder st2 p tag
    else (st, [], false)
  else
    let mt := if optTruthy p.messageTypeField then p.messageTypeField.getD ""
              else if optTruthy p.actionField then p.actionField.getD ""
              else "WEBSOCKET_MESSAGE"
    (st, [MPub.system mt "SUCCESS"], false)

/-- `MotilalWebSocket._on_message` (lines 262-418). The auth/status section
(lines 275-298) only logs on "ERROR" and subscribes on "SUCCESS"; any other
value of a present "status" key falls through to the order section. -/
def onMessage (st : MState) (p : MPayload) : MState × List MPub × Bool :=
  if optTruthy p.status then
    let s := pyUpper (p.status.getD "")
    if s = "ERROR" then (st, [], false)
    else if s = "SUCCESS" then (st, [], false)
    else onMessageOrders st p
  else onMessageOrders st p

/-!
## Motilal resync loop

`MotilalAdapter.resync_unpublished_orders` (motilal_adapter.py lines 618-694)
and `start_resync_loop` (lines 697-706).
-/

/-- A non-null value somewhere in `blitz_order_action`; the negation of the
guard `not self.blitz_order_action or not any(action is not None ...)`. -/
def anyPending (st : MState) : Bool :=
  st.blitzOrderAction.any (fun kv => kv.2.isSome)

/-- Tail of the resync loop body (motilal_adapter.py lines 647-693) once the
Blitz id is resolved and the cache entry is loaded: refresh the cached
broker timestamp, skip consumed actions, map, publish and consume. The first
component is true when `map_order` raised, which aborts the remaining orders
of this tick (the per-tick catch in `start_resync_loop` swallows it). -/
def resyncProcess (st : MState) (order : MPayload) (blitz : String)
    (cached : CachedReq) : Bool × MState × List MPub :=
  let action := effAction st blitz
  let cached1 := { cached with lastModifiedDateTime := order.lastmodifiedtime }
  let st2 := { st with blitzOrderCache := dput st.blitzOrderCache blitz cached1 }
  if action.isNone then (false, st2, [])
  else
    match mapOrder order (some cached1) action with
    | .error _ => (true, st2, [])
    | .ok ol =>
      if ¬ optTruthy ol.orderStatus then (false, st2, [])
      else
        (false,
         { st2 with blitzOrderAction := dput st2.blitzOrderAction blitz none },
         [MPub.order ol "RE_SYNC"])

/-- Body of `for order in orders` (lines 640-693): resolve the broker order
id against `motilal_to_blitz`, skip unknown ids and cache misses, then hand
over to `resyncProcess`. -/
def resyncStep (st : MState) (order : MPayload) : Bool × MState × List MPub :=
  let oid := pyStr order.uniqueorderid
  let blitz0 := dget st.orderIdMapper oid
  if ¬ optTruthy blitz0 then (false, st, [])
  else
    let blitz := blitz0.getD ""
    match dget st.blitzOrderCache blitz with
    | none => (false, st, [])
    | some cached => resyncProcess st order blitz cached

def resyncOrders : MState → List MPayload → MState × List MPub
  | st, [] => (st, [])
  | st, o :: rest =>
    let r := resyncStep st o
    if r.1 then (r.2.1, r.2.2)
    else
      let rf := resyncOrders r.2.1 rest
      (rf.1, r.2.2 ++ rf.2)

/-- One resync tick. `resp = none` models `get_orders()` raising. The last
component records whether the broker order book was queried at all. -/
def resyncTick (st : MState) (resp : Option (List MPayload)) :
    MState × List MPub × Bool :=
  if ¬ anyPending st then (st, [], false)
  else
    match resp with
    | none => (st, [], true)
    | some orders =>
      if orders.isEmpty then (st, [], true)
      else
        let r := resyncOrders st orders
        (r.1, r.2, true)

/-!
## Motilal PLACE_ORDER handler

`MotilalAdapter.handle_place_order` (motilal_adapter.py lines 708-831). The
REST call outcome is an input. `RequestHandler.extract_api_error` lives in
`common/request_handler.py`, which is not part of the snapshot; it parses the
raised exception into the message / uniqueorderid / status fields read with
`.get` defaults on lines 760-762, so those fields are the constructor
arguments here.
-/

/-- The identifier fields of a Blitz PLACE_ORDER request. The remaining
request fields (instrument, side, prices, ...) are copied verbatim into
rejection OrderLogs and are not read by any property below. -/
structure BlitzReq where
  blitzAppOrderID : Option String := none
  exchangeClientID : Option String := none
deriving Repr, DecidableEq

def cachedOfReq (req : BlitzReq) : CachedReq :=
  { blitzAppOrderID := req.blitzAppOrderID
    exchangeClientID := req.exchangeClientID }

inductive RestOutcome
  | preMapError
  | apiError (message : Option String) (uniqueorderid : Option String)
      (status : Option String)
  | accepted (orderId : Option String)
deriving Repr, DecidableEq

/-- `MotilalMapper.error_to_orderlog` (motilal_mapper.py lines 253-295),
restricted to the modelled request fields. -/
def errorToOrderlog (errorMsg : String) (blitzData : Option BlitzReq)
    (errStatus : Option String) (action : Option String) : MOrderLog :=
  let base : MOrderLog :=
    { cancelRejectReason := some errorMsg
      orderStatus := mapStatus errStatus action }
  match blitzData with
  | none => base
  | some req =>
    { base with
      blitzAppOrderID := some (req.blitzAppOrderID.getD "")
      exchangeClientID := some (req.exchangeClientID.getD "") }

/-- `OrderLog.orderlog_error` (common/broker_order_mapper.py lines 81-123):
the hard-rejection builder with `OrderStatus` fixed to "Rejected". -/
def orderlogError (errorMsg : String) (blitzData : Option BlitzReq) : MOrderLog :=
  let base : MOrderLog :=
    { cancelRejectReason := some errorMsg
      orderStatus := some "Rejected" }
  match blitzData with
  | none => base
  | some req =>
    { base with
      blitzAppOrderID := some (req.blitzAppOrderID.getD "")
      exchangeClientID := req.exchangeClientID }

/-- `handle_place_order`. On `preMapError` the `to_motilal` raise propagates
to `process_command`, which logs and publishes nothing, leaving the freshly
armed pending action in place. A `None` Blitz id would key the Python dicts
by `None`; it is encoded as the string "None" (`pyStr`). -/
def handlePlaceOrder (st : MState) (req : BlitzReq) (action : String)
    (rest : RestOutcome) : MState × List MPub :=
  let st1 :=
    if optTruthy req.blitzAppOrderID then
      let bid := req.blitzAppOrderID.getD ""
      { st with blitzOrderCache := dput st.blitzOrderCache bid (cachedOfReq req)
                blitzOrderAction := dput st.blitzOrderAction bid (some action) }
    else st
  match rest with
  | .preMapError => (st1, [])
  | .apiError msgOpt oidOpt statusOpt =>
    let message := msgOpt.getD "Order rejected"
    let errStatus := statusOpt.getD "Rejected"
    let r :=
      if optTruthy oidOpt then
        let oid := oidOpt.getD ""
        let st2 :=
          if optTruthy req.blitzAppOrderID then
            let bid := req.blitzAppOrderID.getD ""
            { st1 with
              blitzToMotilal := dput st1.blitzToMotilal bid oid
              orderIdMapper := dput (dput st1.orderIdMapper oid bid) oid bid }
          else st1
        (st2, errorToOrderlog message (some req) (some errStatus) (some action))
      else (st1, orderlogError message (some req))
    let st3 :=
      { r.1 with
        blitzOrderAction := dput r.1.blitzOrderAction (pyStr req.blitzAppOrderID) none }
    (st3, [MPub.order r.2 action])
  | .accepted oidOpt =>
    if optTruthy req.blitzAppOrderID ∧ optTruthy oidOpt then
      let bid := req.blitzAppOrderID.getD ""
      let oid := oidOpt.getD ""
      ({ st1 with
         blitzToMotilal := dput st1.blitzToMotilal bid oid
         orderIdMapper := dput (dput st1.orderIdMapper oid bid) oid bid }, [])
    else (st1, [])

/-!
## Event traces

After the PLACE_ORDER command, the async feed and the resync loop interleave;
one trace event is one `_on_message` delivery or one resync tick.
-/

inductive MEvent
  | msg (p : MPayload)
  | resync (resp : Option (List MPayload))

def stepEvent (st : MState) : MEvent → MState × List MPub
  | .msg p => let r := onMessage st p; (r.1, r.2.1)
  | .resync resp => let r := resyncTick st resp; (r.1, r.2.1)

def runTrace : MState → List MEvent → MState × List MPub
  | st, [] => (st, [])
  | st, e :: tr =>
    let r := stepEvent st e
    let rf := runTrace r.1 tr
    (rf.1, r.2 ++ rf.2)

/-!
## Zerodha data model

`src/Zerodha/zerodha_websocket.py`, `src/Zerodha/zerodha_mapper.py` and the
PLACE_ORDER handler of `src/Zerodha/zerodha_adapter.py`. The websocket
imports `ZerodhaMapper` from `zerodha_mapper.py`; the adapter module carries
its own inline copy of the class whose `to_blitz_orderlog` additionally
assigns the last-traded fields (zerodha_adapter.py lines 142-183).
-/

/-- Python dict `pop(k, None)`. -/
def dpop {α : Type} (m : List (String × α)) (k : String) : List (String × α) :=
  m.filter (fun kv => kv.1 != k)

/-- One Zerodha websocket order-update payload (keys read by the code). -/
structure ZPayload where
  order_id : Option String := none
  status : Option String := none
  price : Option ℚ := none
  quantity : Option Int := none
  pending_quantity : Option Int := none
  filled_quantity : Option Int := none
  average_price : Option ℚ := none
  exchange_update_timestamp : Option String := none
  exchange_timestamp : Option String := none
  exchange_order_id : Option String := none
  status_message : Option String := none
  status_message_raw : Option String := none
deriving Repr, DecidableEq

/-- The Blitz request fields that `to_blitz_orderlog` and the error builders
read from the cached request dict. -/
structure ZBlitzReq where
  blitzAppOrderID : Option String := none
  account : Option String := none
  exchangeClientID : Option String := none
  exchangeSegment : Option String := none
  exchangeInstrumentID : Option Int := none
  orderSide : Option String := none
  orderType : Option String := none
  productType : Option String := none
  timeInForce : Option String := none
  orderQuantity : Option Int := none
  limitPrice : Option ℚ := none
  stopPrice : Option ℚ := none
  disclosedQuantity : Option Int := none
deriving Repr, DecidableEq

/-- OrderLog as assigned by `zerodha_mapper.py`'s `to_blitz_orderlog` and
`error_to_orderlog` (typed defaults applied by `int(... or 0)` etc.). This
mapper variant never assigns `LastTradedPrice`/`LastTradedQuantity`, so they
keep the `OrderLog.__init__` zero defaults. -/
structure ZOrderLog where
  entityId : String := ""
  blitzAppOrderID : String := ""
  account : String := ""
  exchangeClientID : String := ""
  exchangeSegment : String := ""
  exchangeInstrumentID : Int := 0
  orderSide : String := ""
  orderType : String := ""
  productType : String := ""
  timeInForce : String := ""
  orderQuantity : Int := 0
  orderPrice : ℚ := 0
  orderStopPrice : ℚ := 0
  orderDisclosedQuantity : Int := 0
  exchangeOrderID : String := ""
  orderStatus : String := ""
  executionType : String := ""
  cumulativeQuantity : Int := 0
  leavesQuantity : Int := 0
  orderAverageTradedPrice : ℚ := 0
  lastUpdateDateTime : String := ""
  exchangeTransactTime : String := ""
  cancelRejectReason : String := ""
  lastTradedPrice : ℚ := 0
  lastTradedQuantity : Int := 0
deriving Repr, DecidableEq

/-- `ZerodhaMapper._map_status` of `zerodha_mapper.py` (lines 297-306):
table lookup keyed on `str(status).upper()` with `str(status)` itself as the
default. -/
def zMapStatus (status : Option String) : String :=
  let s := pyUpper (pyStr status)
  if s = "OPEN" then "New"
  else if s = "COMPLETE" then "Filled"
  else if s = "MODIFIED" then "Replaced"
  else if s = "CANCELLED" then "Cancelled"
  else if s = "REJECTED" then "Rejected"
  else pyStr status

/-- `ZerodhaMapper.to_blitz_orderlog` of `zerodha_mapper.py` (lines
125-163) — the variant the websocket uses. -/
def toBlitzOrderlog (zd : ZPayload) (req : Option ZBlitzReq) : ZOrderLog :=
  let withReq : ZOrderLog :=
    match req with
    | none => {}
    | some r =>
      { blitzAppOrderID := r.blitzAppOrderID.getD ""
        account := r.account.getD ""
        exchangeClientID := r.exchangeClientID.getD ""
        exchangeSegment := r.exchangeSegment.getD ""
        exchangeInstrumentID := r.exchangeInstrumentID.getD 0
        orderSide := r.orderSide.getD ""
        orderType := r.orderType.getD ""
        productType := r.productType.getD ""
        timeInForce := r.timeInForce.getD ""
        orderQuantity := r.orderQuantity.getD 0
        orderPrice := r.limitPrice.getD 0
        orderStopPrice := r.stopPrice.getD 0
        orderDisclosedQuantity := r.disclosedQuantity.getD 0 }
  { withReq with
    exchangeOrderID := zd.order_id.getD ""
    orderStatus := zMapStatus zd.status
    cumulativeQuantity := zd.filled_quantity.getD 0
    leavesQuantity := zd.pending_quantity.getD 0
    orderAverageTradedPrice := zd.average_price.getD 0
    lastUpdateDateTime := zd.exchange_update_timestamp.getD ""
    exchangeTransactTime := zd.exchange_timestamp.getD ""
    cancelRejectReason :=
      if optTruthy zd.status_message then zd.status_message.getD ""
      else if optTruthy zd.status_message_raw then zd.status_message_raw.getD ""
      else "" }

/-- OrderLog as assigned by the adapter-inline `to_blitz_orderlog`
(zerodha_adapter.py lines 142-183): the raw `.get` values are assigned
without conversion, so absent keys store Python `None` (serialized to 0 by
`OrderLog.to_dict`). -/
structure ZAOrderLog where
  blitzAppOrderID : String := ""
  account : String := ""
  exchangeClientID : String := ""
  exchangeSegment : String := ""
  exchangeInstrumentID : Int := 0
  orderSide : String := ""
  orderType : String := ""
  productType : String := ""
  timeInForce : String := ""
  orderQuantity : Option Int := none
  orderPrice : Option ℚ := none
  orderStopPrice : Option ℚ := none
  orderDisclosedQuantity : Option Int := none
  exchangeOrderID : String := ""
  orderStatus : String := ""
  cumulativeQuantity : Option Int := none
  leavesQuantity : Option Int := none
  orderAverageTradedPrice : Option ℚ := none
  lastUpdateDateTime : String := ""
  exchangeTransactTime : String := ""
  lastTradedPrice : Option ℚ := none
  lastTradedQuantity : Option Int := none
  lastExecutionTransactTime : String := ""
  executionID : Option String := none
  cancelRejectReason : String := ""
deriving Repr, DecidableEq

/-- Inline `ZerodhaMapper._map_status` of zerodha_adapter.py (lines
317-327), which additionally maps "TRIGGER PENDING". -/
def zMapStatusAdapter (status : Option String) : String :=
  let s := pyUpper (pyStr status)
  if s = "OPEN" then "New"
  else if s = "COMPLETE" then "Filled"
  else if s = "MODIFIED" then "Replaced"
  else if s = "CANCELLED" then "Cancelled"
  else if s = "REJECTED" then "Rejected"
  else if s = "TRIGGER PENDING" then "New"
  else pyStr status

/-- Inline `ZerodhaMapper.to_blitz_orderlog` of zerodha_adapter.py (lines
141-183): `LastTradedPrice` and `LastTradedQuantity` are straight copies of
the payload's "average_price" and "filled_quantity". -/
def toBlitzOrderlogAdapter (zd : ZPayload) (req : Option ZBlitzReq) : ZAOrderLog :=
  let withReq : ZAOrderLog :=
    match req with
    | none => {}
    | some r =>
      { blitzAppOrderID := r.blitzAppOrderID.getD ""
        account := r.account.getD ""
        exchangeClientID := r.exchangeClientID.getD ""
        exchangeSegment := r.exchangeSegment.getD ""
        exchangeInstrumentID := r.exchangeInstrumentID.getD 0
        orderSide := r.orderSide.getD ""
        orderType := r.orderType.getD ""
        productType := r.productType.getD ""
        timeInForce := r.timeInForce.getD ""
        orderQuantity := r.orderQuantity
        orderPrice := r.limitPrice
        orderStopPrice := r.stopPrice
        orderDisclosedQuantity := r.disclosedQuantity }
  { withReq with
    exchangeOrderID := zd.order_id.getD ""
    orderStatus := zMapStatusAdapter zd.status
    cumulativeQuantity := zd.filled_quantity
    leavesQuantity := zd.pending_quantity
    orderAverageTradedPrice := zd.average_price
    lastUpdateDateTime := zd.exchange_update_timestamp.getD ""
    exchangeTransactTime := zd.exchange_timestamp.getD ""
    lastTradedPrice := zd.average_price
    lastTradedQuantity := zd.filled_quantity
    lastExecutionTransactTime := zd.exchange_update_timestamp.getD ""
    executionID := zd.exchange_order_id
    cancelRejectReason :=
      if optTruthy zd.status_message then zd.status_message.getD ""
      else if optTruthy zd.status_message_raw then zd.status_message_raw.getD ""
      else "" }

/-- Per-order websocket cache entry (`order_state_cache` values). -/
structure ZCache where
  statusField : Option String := none
  price : Option ℚ := none
  quantity : Option Int := none
  lastUpdateSeen : Bool := false
deriving Repr, DecidableEq

instance : Inhabited ZCache := ⟨{}⟩

inductive ZPub
  | order (log : ZOrderLog)
deriving Repr, DecidableEq

/-- Combined adapter + websocket state. `order_request_data` is the same
dict as the websocket's `request_data_mapping` (passed by reference in
`_start_websocket`). -/
structure ZState where
  blitzToZerodha : List (String × String)
  zerodhaToBlitz : List (String × String)
  orderRequestData : List (String × ZBlitzReq)
  orderStateCache : List (String × ZCache)
  pendingWsUpdates : List (String × ZPayload)
deriving Repr, DecidableEq

def ZState.empty : ZState :=
  { blitzToZerodha := [], zerodhaToBlitz := [], orderRequestData := [],
    orderStateCache := [], pendingWsUpdates := [] }

/-- The instance attributes assigned by `ZerodhaWebSocket.__init__`
(zerodha_websocket.py lines 6-32); `hasattr` checks membership here. No
`pending_lock` is ever assigned anywhere in the class. -/
def zerodhaWsAttrs : List String :=
  ["api_key", "access_token", "user_id", "redis_client", "formatter",
   "request_data_mapping", "logger", "kws", "is_connected",
   "order_state_cache", "pending_ws_updates"]

/-- `ZerodhaWebSocket._on_order_update` (zerodha_websocket.py lines 63-241):
park unresolved updates, drop "UPDATE" noise, publish Replaced only when
price or quantity changed against the cached snapshot, handle cancel /
complete / first-open. -/
def zOnOrderUpdate (st : ZState) (data : ZPayload) : ZState × List ZPub :=
  if ¬ optTruthy data.order_id then (st, [])
  else
    let oid := data.order_id.getD ""
    let status := pyUpper (data.status.getD "")
    match dget st.orderRequestData oid with
    | none =>
      ({ st with pendingWsUpdates := dput st.pendingWsUpdates oid data }, [])
    | some blitzReq =>
      let prev := dget st.orderStateCache oid
      let prevC := prev.getD {}
      let price := data.price
      let qty := data.quantity
      let pendingQty := data.pending_quantity.getD 0
      if status = "UPDATE" then
        let cache1 := dput st.orderStateCache oid { prevC with lastUpdateSeen := true }
        ({ st with orderStateCache := cache1 }, [])
      else if status = "OPEN" ∧ prev.isSome ∧ prevC.statusField = some "OPEN" ∧
              (price ≠ prevC.price ∨ qty ≠ prevC.quantity) then
        let ol := { toBlitzOrderlog data (some blitzReq) with orderStatus := "Replaced" }
        let entry : ZCache := { statusField := some "OPEN", price := price, quantity := qty }
        let cache1 := dput st.orderStateCache oid entry
        ({ st with orderStateCache := cache1 }, [ZPub.order ol])
      else if status = "CANCELLED" ∧ pendingQty > 0 then (st, [])
      else if status = "CANCELLED" then
        let ol := { toBlitzOrderlog data (some blitzReq) with
                    orderStatus := "Cancelled", leavesQuantity := 0 }
        let cache1 := dput st.orderStateCache oid { statusField := some "CANCELLED" }
        ({ st with orderStateCache := cache1 }, [ZPub.order ol])
      else if status = "COMPLETE" then
        let cache1 := dput st.orderStateCache oid { statusField := some "COMPLETE" }
        ({ st with orderStateCache := cache1 },
         [ZPub.order (toBlitzOrderlog data (some blitzReq))])
      else if status = "OPEN" ∧ prev.isNone then
        let entry : ZCache := { statusField := some "OPEN", price := price, quantity := qty }
        let cache1 := dput st.orderStateCache oid entry
        ({ st with orderStateCache := cache1 },
         [ZPub.order (toBlitzOrderlog data (some blitzReq))])
      else (st, [])

/-- Inline `ZerodhaMapper.error_to_orderlog` (zerodha_adapter.py lines
213-236). -/
def zErrorToOrderlog (errorMsg : String) (blitzData : Option ZBlitzReq)
    (entityId : String) : ZOrderLog :=
  let base : ZOrderLog :=
    { entityId := entityId, orderStatus := "Rejected", executionType := "Rejected",
      cancelRejectReason := errorMsg }
  match blitzData with
  | none => base
  | some r =>
    { base with
      blitzAppOrderID := r.blitzAppOrderID.getD ""
      account := r.account.getD ""
      exchangeClientID := r.exchangeClientID.getD ""
      exchangeSegment := r.exchangeSegment.getD ""
      exchangeInstrumentID := r.exchangeInstrumentID.getD 0
      orderSide := r.orderSide.getD ""
      orderType := r.orderType.getD ""
      productType := r.productType.getD ""
      timeInForce := r.timeInForce.getD ""
      orderQuantity := r.orderQuantity.getD 0
      orderPrice := r.limitPrice.getD 0
      orderStopPrice := r.stopPrice.getD 0
      orderDisclosedQuantity := r.disclosedQuantity.getD 0 }

/-- Outcome of the REST leg of `_handle_place_order`: the mapper or REST
call raised, the response body carried `{"status": "error"}`, or the order
was accepted with a broker order id. -/
inductive ZRest
  | raised (message : String)
  | apiErrorResp (message : Option String)
  | ok (orderId : String)
deriving Repr, DecidableEq

/-- The `str(e)` of the `AttributeError` raised by `self.ws.pending_lock`. -/
def pendingLockAttrError : String :=
  "ZerodhaWebSocket object has no attribute pending_lock"

/-- `ZerodhaAdapter._handle_place_order` (zerodha_adapter.py lines 501-592).
On success the replay block runs `with self.ws.pending_lock:` (line 563);
`ZerodhaWebSocket` never assigns a `pending_lock` attribute, so when the
websocket is running this lookup raises `AttributeError`, which the
enclosing `except` turns into a published rejection (lines 581-592). The
dict mutations made before the raise persist. -/
def zHandlePlaceOrder (st : ZState) (req : ZBlitzReq) (rest : ZRest)
    (wsStarted : Bool) (entityId : String) : ZState × List ZPub :=
  let st1 :=
    if optTruthy req.blitzAppOrderID then
      let reqData1 := dput st.orderRequestData ("blitz_" ++ req.blitzAppOrderID.getD "") req
      { st with orderRequestData := reqData1 }
    else st
  match rest with
  | .raised msg =>
    (st1, [ZPub.order (zErrorToOrderlog msg (some req) entityId)])
  | .apiErrorResp msgOpt =>
    (st1, [ZPub.order (zErrorToOrderlog (msgOpt.getD "") (some req) entityId)])
  | .ok orderId =>
    let bid := pyStr req.blitzAppOrderID
    let reqData2 := dpop (dput st1.orderRequestData orderId req) ("blitz_" ++ bid)
    let st2 :=
      { st1 with
        blitzToZerodha := dput st1.blitzToZerodha bid orderId
        zerodhaToBlitz := dput st1.zerodhaToBlitz orderId bid
        orderRequestData := reqData2 }
    if wsStarted ∧ "pending_ws_updates" ∈ zerodhaWsAttrs then
      if "pending_lock" ∈ zerodhaWsAttrs then
        match dget st2.pendingWsUpdates orderId with
        | some pending =>
          let st3 := { st2 with pendingWsUpdates := dpop st2.pendingWsUpdates orderId }
          zOnOrderUpdate st3 pending
        | none => (st2, [])
      else
        (st2, [ZPub.order (zErrorToOrderlog pendingLockAttrError (some req) entityId)])
    else (st2, [])

/-!
## Motilal websocket runtime flags (reconnect/backoff)

`MotilalWebSocket.__init__` lines 92-102 and `_on_close` lines 435-490 of
`src/Motilal/motilal_websocket.py`. Searching the file shows `_auth_failed`
is assigned exactly once, to `False`, in `__init__`.
-/

structure WSConn where
  shouldRun : Bool := true
  authFailed : Bool := false
  authSuccess : Bool := false
  isConnected : Bool := false
  tpomsConnectedPublished : Bool := false
  reconnectCount : Nat := 0
  maxReconnectDelay : Nat := 60
deriving Repr, DecidableEq

/-- Effect of the auth/status section of `_on_message` (lines 275-298) on
the runtime flags: an "ERROR" status is logged and dropped — no flag is
touched; "SUCCESS" with an auth message sets `_auth_success` and
subscribes. -/
def wsProcessStatus (c : WSConn) (status messageText : String) : WSConn :=
  let s := pyUpper status
  if s = "ERROR" then c
  else if s = "SUCCESS" then
    if ¬ c.authSuccess ∧ strContains (pyLower messageText) "auth" then
      { c with authSuccess := true }
    else c
  else c

/-- `MotilalWebSocket._on_close` (lines 435-490): returns the updated flags
and the delay of the reconnect attempt it schedules (`none` when no
reconnect thread is started). -/
def wsOnClose (c : WSConn) : WSConn × Option Nat :=
  let c1 := { c with isConnected := false, tpomsConnectedPublished := false }
  if ¬ c1.shouldRun ∨ c1.authFailed then (c1, none)
  else
    let n := c1.reconnectCount + 1
    let delay := min (3 * 2 ^ (n - 1)) c1.maxReconnectDelay
    ({ c1 with reconnectCount := n }, some delay)


/-- Broker-id resolution step of `handle_cancel_order` (motilal_adapter.py
line 930): a cancel command reads the adapter's `blitz_to_motilal` dict. -/
def cancelResolveBroker (st : MState) (blitzId : String) : Option String :=
  dget st.blitzToMotilal blitzId

/-!
## Scenario fixtures and publication projections
-/


/-- State of a pending Motilal place: identity mapped, request cached,
pending action armed. -/
def pendingPlaceState : MState :=
  { orderIdMapper := [("MO1", "L1")]
    blitzToMotilal := [("L1", "MO1")]
    blitzOrderCache := [("L1", { blitzAppOrderID := some "L1" })]
    blitzOrderAction := [("L1", some "PLACE_ORDER")] }

/-- Unresolved async update carrying the correlation tag (C4). -/
def c4Payload : MPayload :=
  { uniqueorderid := some "MO1", tag := some "L1", orderstatus := some "CONFIRM",
    averageprice := some 100 }

/-- Fill update whose payload reports zero traded quantity and zero average
price (C3). -/
def c3Payload : MPayload :=
  { uniqueorderid := some "MO1", orderstatus := some "TRADED",
    qtytradedtoday := some 0, averageprice := some 0 }

def pubOrderStatus : MPub → Option String
  | .order ol _ => ol.orderStatus
  | .system _ _ => none

def pubLastTradedQty : MPub → Option Int
  | .order ol _ => some ol.lastTradedQuantity
  | .system _ _ => none

def pubLastTradedPrice : MPub → Option ℚ
  | .order ol _ => some ol.lastTradedPrice
  | .system _ _ => none

def zPubStatus : ZPub → String
  | .order ol => ol.orderStatus

def zPubBlitzId : ZPub → String
  | .order ol => ol.blitzAppOrderID

/-- An "OPEN" async update for one order at a given price and quantity. -/
def openPayload (oid : String) (pr : ℚ) (qt : Int) : ZPayload :=
  { order_id := some oid, status := some "OPEN", price := some pr,
    quantity := some qt }

/-- The Zerodha PLACE_ORDER request of the C1 race scenario. -/
def c1Req : ZBlitzReq :=
  { blitzAppOrderID := some "L1", orderQuantity := some 10, limitPrice := some 100 }

/-- The websocket update that arrives before the REST acknowledgement in the
C1 race scenario. -/
def c1Update : ZPayload :=
  { order_id := some "B1", status := some "OPEN", price := some 100,
    quantity := some 10, pending_quantity := some 10 }

/-!
## Predicates for the exactly-once property (C2)
-/

/-- A published terminal (New or Rejected) order event for L. -/
def isNRFor (L : String) : MPub → Bool
  | .order ol _ => ol.blitzAppOrderID == some L
      && (ol.orderStatus == some "New" || ol.orderStatus == some "Rejected")
  | .system _ _ => false

/-- A published New event for L. -/
def isNewFor (L : String) : MPub → Bool
  | .order ol _ => ol.blitzAppOrderID == some L && ol.orderStatus == some "New"
  | .system _ _ => false

/-- Number of terminal New/Rejected events for L in a publication list. -/
def nrCount (L : String) (ps : List MPub) : Nat := (ps.filter (isNRFor L)).length

/-- The pending action at L normalizes (strip/upper, as `map_status` does) to
PLACE_ORDER. -/
def actPlace (st : MState) (L : String) : Prop :=
  pyUpper (pyStrip (pyStr (effAction st L))) = "PLACE_ORDER"

/-- Every cache entry that carries BlitzAppOrderID = L sits at key L; this is
what ties a published event for L back to L's own pending action. -/
def cacheOwner (st : MState) (L : String) : Prop :=
  ∀ k c, dget st.blitzOrderCache k = some c → c.blitzAppOrderID = some L → k = L

/-- Specification of one reconciliation step with respect to L: it publishes
at most one terminal event for L, publishes one only while L's place action
is pending — consuming it — and never re-arms the pending action. -/
def NRStep (L : String) (st st' : MState) (ps : List MPub) : Prop :=
  cacheOwner st L →
    cacheOwner st' L
    ∧ (actPlace st' L → actPlace st L)
    ∧ nrCount L ps ≤ 1
    ∧ (nrCount L ps = 1 → actPlace st L ∧ ¬ actPlace st' L)

/-- Well-formed REST error data: `RequestHandler.extract_api_error` (in
`common/request_handler.py`, not part of the snapshot) parses the exception
raised by the order API, whose error bodies carry `status = "ERROR"`
(order_api.py lines 126-134); `handle_place_order` itself defaults the field
to "Rejected" (line 762). -/
def restErrOk : RestOutcome → Prop
  | .apiError _ oid statusOpt =>
      optTruthy oid = true →
        (pyUpper (pyStrip (statusOpt.getD "Rejected")) = "ERROR"
         ∨ pyUpper (pyStrip (statusOpt.getD "Rejected")) = "REJECTED")
  | _ => True

/-- A broker status that maps to the terminal place outcome. -/
def confirmStatus (s : Option String) : Prop :=
  s = some "CONFIRM" ∨ s = some "REJECTED" ∨ s = some "ERROR"

/-- A well-formed report for broker order B carrying a terminal place
status. -/
def confirmPayload (B : String) (p : MPayload) : Prop :=
  p.status = none ∧ p.uniqueorderid = some B ∧ p.tag = none
  ∧ confirmStatus p.orderstatus ∧ p.averageprice.isSome

/-- Every order update delivered by the event is a terminal place report for
B. -/
def confirmEvent (B : String) : MEvent → Prop
  | .msg p => confirmPayload B p
  | .resync none => True
  | .resync (some os) => ∀ p ∈ os, confirmPayload B p

/-- The event actually delivers at least one order update. -/
def reportsEvent : MEvent → Bool
  | .msg _ => true
  | .resync none => false
  | .resync (some os) => ¬ os.isEmpty

/-- State after a successful placement of L ↔ B whose outcome has not yet
been published: identity resolved, request cached, place action pending. -/
def leftSt (L B : String) (st : MState) : Prop :=
  dget st.orderIdMapper B = some L
  ∧ (∃ c, dget st.blitzOrderCache L = some c ∧ c.blitzAppOrderID = some L)
  ∧ st.blitzOrderAction = [(L, some "PLACE_ORDER")]

/-- State after the terminal event for L was published: action consumed. -/
def rightSt (L B : String) (st : MState) : Prop :=
  dget st.orderIdMapper B = some L
  ∧ (∃ c, dget st.blitzOrderCache L = some c ∧ c.blitzAppOrderID = some L)
  ∧ st.blitzOrderAction = [(L, none)]

/-- Everything published for one PLACE_ORDER command handled from a fresh
adapter state, across the synchronous path and a subsequent async/resync
trace. -/
def placeRun (req : BlitzReq) (rest : RestOutcome) (tr : List MEvent) : List MPub :=
  (handlePlaceOrder MState.empty req "PLACE_ORDER" rest).2
    ++ (runTrace (handlePlaceOrder MState.empty req "PLACE_ORDER" rest).1 tr).2

/-- A concrete PLACE_ORDER request for Blitz order L1. -/
def c2Req : BlitzReq :=
  { blitzAppOrderID := some "L1", exchangeClientID := some "E1" }

/-- A concrete broker confirmation push for broker order B1. -/
def c2Payload : MPayload :=
  { uniqueorderid := some "B1", orderstatus := some "CONFIRM",
    qtytradedtoday := some 0, averageprice := some 100 }

/-!
## Theorems
-/

theorem dget_dput_self {α : Type} (m : List (String × α)) (k : String) (v : α) :
    dget (dput m k v) k = some v := by
  induction m with
  | nil => simp [dget, dput]
  | cons hd tl ih =>
    by_cases h : hd.1 = k
    · simp [dput, h, dget]
    · simp [dput, h, dget, ih]
theorem dget_dput_ne {α : Type} (m : List (String × α)) (k k' : String) (v : α)
    (h : k' ≠ k) : dget (dput m k v) k' = dget m k' := by
  have hne : k ≠ k' := Ne.symm h
  induction m with
  | nil => simp [dget, dput, hne]
  | cons hd tl ih =>
    by_cases hk : hd.1 = k
    · have hd1 : hd.1 ≠ k' := by rw [hk]; exact hne
      simp [dput, hk, dget, hne, hd1]
    · by_cases hk' : hd.1 = k'
      · simp [dput, hk, dget, hk', h]
      · simp [dput, hk, dget, hk', ih]
theorem dput_dput_self {α : Type} (m : List (String × α)) (k : String) (v w : α) :
    dput (dput m k v) k w = dput m k w := by
  induction m with
  | nil => simp [dput]
  | cons hd tl ih =>
    by_cases h : hd.1 = k
    · simp [dput, h]
    · simp [dput, h, ih]
theorem dget_isSome_iff {α : Type} (m : List (String × α)) (k : String) :
    (dget m k).isSome ↔ k ∈ dkeys m := by
  induction m with
  | nil => simp [dget, dkeys]
  | cons hd tl ih =>
    by_cases h : hd.1 = k
    · simp [dget, h, dkeys]
    · simp [dget, h, dkeys, ih, Ne.symm h]
theorem dkeys_dput {α : Type} (m : List (String × α)) (k : String) (v : α) :
    dkeys (dput m k v) = if (dget m k).isSome then dkeys m else dkeys m ++ [k] := by
  induction m with
  | nil => simp [dput, dkeys, dget]
  | cons hd tl ih =>
    by_cases h : hd.1 = k
    · simp [dput, h, dkeys, dget]
    · simp only [dput, h, if_false, dget, dkeys, List.map_cons]
      simp only [dkeys] at ih
      rw [ih]
      by_cases h2 : (dget tl k).isSome <;> simp [h2, h]
theorem dkeys_dput_nodup {α : Type} (m : List (String × α)) (k : String) (v : α)
    (h : (dkeys m).Nodup) : (dkeys (dput m k v)).Nodup := by
  rw [dkeys_dput]
  by_cases hs : (dget m k).isSome
  · simpa [hs]
  · have hk : k ∉ dkeys m := fun hm => hs ((dget_isSome_iff m k).mpr hm)
    simp [hs, List.nodup_append, h, hk]


/-- C8: identity recording is idempotent and last-writer-wins: recording
(L,B) twice equals recording it once (so lookups give B and L back and no
duplicate entries accumulate), and recording a new broker id B2 for the same
L overwrites the forward mapping. -/
theorem spec_C8_recordPlacement_idempotent_last_writer_wins
    (s : IdentStore) (L B B2 : String) :
    recordPlacement (recordPlacement s L B) L B = recordPlacement s L B
    ∧ lookupBroker (recordPlacement s L B) L = some B
    ∧ lookupLocal (recordPlacement s L B) B = some L
    ∧ lookupBroker (recordPlacement (recordPlacement s L B) L B2) L = some B2 := by
  refine ⟨?_, ?_, ?_, ?_⟩
  · simp [recordPlacement, dput_dput_self]
  · simp [lookupBroker, recordPlacement, dget_dput_self]
  · simp [lookupLocal, recordPlacement, dget_dput_self]
  · simp [lookupBroker, recordPlacement, dput_dput_self, dget_dput_self]

/-- C7: when no LocalOrderId has a non-null pending action, one resync tick
issues zero broker order-book queries (and changes nothing, publishes
nothing). -/
theorem spec_C7_resync_noop_when_idle (st : MState) (resp : Option (List MPayload))
    (h : ∀ kv ∈ st.blitzOrderAction, kv.2 = none) :
    (resyncTick st resp).2.2 = false ∧ (resyncTick st resp).1 = st
    ∧ (resyncTick st resp).2.1 = [] := by
  have hp : anyPending st = false := by
    simp only [anyPending, List.any_eq_false]
    intro kv hkv
    simp [h kv hkv]
  simp [resyncTick, hp]

/-- C7 witness. -/
theorem spec_C7_witness :
    (resyncTick { MState.empty with blitzOrderAction := [("L1", none)] }
      (some [{ uniqueorderid := some "MO1" }])).2.2 = false :=
  (spec_C7_resync_noop_when_idle _ _ (by decide)).1

/-- C9: on a disconnect with the feed running, the n-th reconnect attempt is
scheduled after min(3·2^(n−1), 60) — that part of the claim holds. But the
claimed terminal behaviour on authentication failure does not: processing the
broker's auth-failure push (status "ERROR", code MO2014 / "Invalid User")
leaves `_auth_failed` at False — nothing in this file ever sets it — so the
subsequent `_on_close` still schedules a reconnect (after 3 units). -/
theorem spec_C9_backoff_formula_but_auth_failure_not_terminal :
    (∀ c : WSConn, c.shouldRun = true → c.authFailed = false →
       (wsOnClose c).2 = some (min (3 * 2 ^ (c.reconnectCount + 1 - 1)) c.maxReconnectDelay))
    ∧ (wsProcessStatus {} "ERROR" "Invalid User (code: MO2014)").authFailed = false
    ∧ (wsOnClose (wsProcessStatus {} "ERROR" "Invalid User (code: MO2014)")).2 = some 3 := by
  refine ⟨?_, by decide, by decide⟩
  intro c hrun hauth
  simp [wsOnClose, hrun, hauth]

/-- C9 witness. -/
theorem spec_C9_witness :
    (wsOnClose {}).2 = some 3 := by
  have h := spec_C9_backoff_formula_but_auth_failure_not_terminal.1 {} rfl rfl
  simpa using h

/-- C10: a Motilal update without an "averageprice" key makes `map_order`
raise TypeError in `averageprice / 100`; `_on_message` catches it, so the
whole update — whatever its status — publishes nothing, completes no cache
refresh, and leaves the pending-action marker in place (the state is
returned unchanged and the caught flag is set). -/
theorem spec_C10_missing_averageprice_aborts_update
    (st : MState) (p : MPayload) (oid L : String)
    (hid : p.uniqueorderid = some oid) (hne : oid ≠ "")
    (hres : dget st.orderIdMapper oid = some L) (hL : L ≠ "")
    (hstatus : p.status = none)
    (hap : p.averageprice = none) :
    onMessage st p = (st, [], true) := by
  simp [onMessage, hstatus, optTruthy, onMessageOrders, hid, hne, hres, hL,
    processOrder, mapOrder, hap]

/-- C10 witness: a fill notification for a resolved order with no
averageprice field. -/
theorem spec_C10_witness :
    onMessage pendingPlaceState { uniqueorderid := some "MO1", orderstatus := some "TRADED" } =
      (pendingPlaceState, [], true) :=
  spec_C10_missing_averageprice_aborts_update _ _ "MO1" "L1" rfl (by decide)
    (by decide) (by decide) rfl rfl

/-- C6: an async update whose broker status code has no defined mapping for
the current pending action publishes zero events, and no error is raised out
of the handler (the caught-exception flag stays false). -/
theorem spec_C6_unmapped_status_logged_and_skipped
    (st : MState) (p : MPayload) (oid L : String)
    (hid : p.uniqueorderid = some oid) (hne : oid ≠ "")
    (hres : dget st.orderIdMapper oid = some L) (hL : L ≠ "")
    (hstatus : p.status = none)
    (hap : p.averageprice.isSome)
    (hunmapped : mapStatus p.orderstatus (effAction st L) = none) :
    (onMessage st p).2.1 = [] ∧ (onMessage st p).2.2 = false := by
  obtain ⟨ap, hap'⟩ := Option.isSome_iff_exists.mp hap
  constructor <;>
    simp [onMessage, hstatus, optTruthy, onMessageOrders, hid, hne, hres, hL,
      processOrder, mapOrder, hap', hunmapped]

/-- C6 witness: an unknown broker code while a place is pending. -/
theorem spec_C6_witness :
    ((onMessage pendingPlaceState
        { uniqueorderid := some "MO1", orderstatus := some "FROZEN",
          averageprice := some 100 }).2.1 = [])
    ∧ ((onMessage pendingPlaceState
        { uniqueorderid := some "MO1", orderstatus := some "FROZEN",
          averageprice := some 100 }).2.2 = false) :=
  spec_C6_unmapped_status_logged_and_skipped _ _ "MO1" "L1" rfl (by decide)
    (by decide) (by decide) rfl (by decide) (by decide)

theorem processOrder_preserves_maps (st : MState) (p : MPayload) (k : String) :
    (processOrder st p k).1.orderIdMapper = st.orderIdMapper
    ∧ (processOrder st p k).1.blitzToMotilal = st.blitzToMotilal := by
  cases hm : mapOrder p (dget st.blitzOrderCache k) (effAction st k) with
  | error e => simp [processOrder, hm]
  | ok ol => by_cases h : optTruthy ol.orderStatus <;> simp [processOrder, hm, h]

/-- C4 (amended): the auto-learn path stores both directions inside the
websocket's `order_id_mapper` (the adapter's `motilal_to_blitz` dict), so
both lookups succeed there and no duplicate keys appear; but the adapter's
`blitz_to_motilal` dict — the one `handle_cancel_order`/`handle_modify_order`
resolve through — is left untouched, so a subsequent cancel for L does not
resolve B. -/
theorem spec_C4_autolearn_bidirectional_in_feed_map_only
    (st : MState) (p : MPayload) (B L : String)
    (hid : p.uniqueorderid = some B) (hB : B ≠ "")
    (hunres : dget st.orderIdMapper B = none)
    (htag : p.tag = some L) (hL : L ≠ "")
    (hstatus : p.status = none)
    (hnodup : (dkeys st.orderIdMapper).Nodup) :
    dget (onMessage st p).1.orderIdMapper B = some L
    ∧ dget (onMessage st p).1.orderIdMapper L = some B
    ∧ (dkeys (onMessage st p).1.orderIdMapper).Nodup
    ∧ cancelResolveBroker (onMessage st p).1 L = dget st.blitzToMotilal L := by
  have hstep : onMessage st p =
      processOrder
        { st with orderIdMapper := dput (dput st.orderIdMapper B L) L B } p L := by
    simp [onMessage, hstatus, optTruthy, onMessageOrders, hid, hB, hunres, htag, hL]
  have hmaps := processOrder_preserves_maps
    { st with orderIdMapper := dput (dput st.orderIdMapper B L) L B } p L
  refine ⟨?_, ?_, ?_, ?_⟩
  · rw [hstep, hmaps.1]
    by_cases hBL : B = L
    · subst hBL; simp [dget_dput_self]
    · rw [dget_dput_ne _ _ _ _ hBL, dget_dput_self]
  · rw [hstep, hmaps.1, dget_dput_self]
  · rw [hstep, hmaps.1]
    exact dkeys_dput_nodup _ _ _ (dkeys_dput_nodup _ _ _ hnodup)
  · rw [cancelResolveBroker, hstep, hmaps.2]

/-- C4 counterexample: after the auto-learn of ("MO1" ↔ "L1") from the tag,
the broker-id resolution a cancel command performs still misses, so the
claim's "a subsequent modify or cancel command for L resolves B" is false
on this input. -/
theorem spec_C4_counterexample :
    cancelResolveBroker (onMessage MState.empty c4Payload).1 "L1" = none := by
  decide

/-- C4 witness. -/
theorem spec_C4_witness :
    dget (onMessage MState.empty c4Payload).1.orderIdMapper "MO1" = some "L1"
    ∧ dget (onMessage MState.empty c4Payload).1.orderIdMapper "L1" = some "MO1" := by
  have h := spec_C4_autolearn_bidirectional_in_feed_map_only
    MState.empty c4Payload "MO1" "L1" rfl (by decide) (by decide) rfl (by decide)
    rfl (by decide)
  exact ⟨h.1, h.2.1⟩

/-- C5: with a cached OPEN snapshot at (pr, qt), an OPEN update with the same
price and quantity publishes nothing and leaves the state unchanged — so a
second identical one publishes nothing either — while an OPEN update whose
price differs from the cached snapshot publishes exactly one Replaced event.
De-duplication compares the payload's price/quantity against the snapshot,
not just the status string. -/
theorem spec_C5_dedup_against_cached_snapshot
    (st : ZState) (oid : String) (req : ZBlitzReq) (c : ZCache)
    (pr pr2 : ℚ) (qt : Int)
    (hoid : oid ≠ "")
    (hreq : dget st.orderRequestData oid = some req)
    (hcache : dget st.orderStateCache oid = some c)
    (hcs : c.statusField = some "OPEN") (hcp : c.price = some pr)
    (hcq : c.quantity = some qt)
    (hne : pr2 ≠ pr) :
    zOnOrderUpdate st (openPayload oid pr qt) = (st, [])
    ∧ zOnOrderUpdate (zOnOrderUpdate st (openPayload oid pr qt)).1
        (openPayload oid pr qt) = (st, [])
    ∧ (zOnOrderUpdate (zOnOrderUpdate (zOnOrderUpdate st (openPayload oid pr qt)).1
          (openPayload oid pr qt)).1 (openPayload oid pr2 qt)).2 =
        [ZPub.order { toBlitzOrderlog (openPayload oid pr2 qt) (some req) with
                      orderStatus := "Replaced" }] := by
  have hOP : pyUpper "OPEN" = "OPEN" := by decide
  have h1 : zOnOrderUpdate st (openPayload oid pr qt) = (st, []) := by
    simp [zOnOrderUpdate, openPayload, optTruthy, hoid, hreq, hcache, hOP,
      hcs, hcp, hcq]
  refine ⟨h1, ?_, ?_⟩
  · rw [h1]; exact h1
  · rw [h1, h1]
    simp [zOnOrderUpdate, openPayload, optTruthy, hoid, hreq, hcache, hOP,
      hcs, hcp, hcq, hne]

/-- C5 witness. -/
theorem spec_C5_witness :
    (zOnOrderUpdate
      { ZState.empty with
        orderRequestData := [("B1", c1Req)]
        orderStateCache := [("B1", { statusField := some "OPEN", price := some 100,
                                     quantity := some 10 })] }
      (openPayload "B1" 100 10)).2 = [] := by
  have h := spec_C5_dedup_against_cached_snapshot
    { ZState.empty with
      orderRequestData := [("B1", c1Req)]
      orderStateCache := [("B1", { statusField := some "OPEN", price := some 100,
                                   quantity := some 10 })] }
    "B1" c1Req { statusField := some "OPEN", price := some 100, quantity := some 10 }
    100 101 10 (by decide) (by decide) (by decide) rfl rfl rfl (by decide)
  rw [h.1]

/-- C3 (amended): the published last-traded fields are straight copies of the
broker payload, not derived: the Motilal mapper sets LastTradedQuantity to
`qtytradedtoday` (default 0) and LastTradedPrice to `averageprice / 100`,
and the Zerodha adapter mapper copies `filled_quantity` and `average_price`
verbatim; there is no `orderQuantity − leavesQuantity` or limit-price
fallback, so zero payload values are published as zero. -/
theorem spec_C3_last_traded_fields_copied_not_derived
    (p : MPayload) (cashed : Option CachedReq) (action : Option String) (ap : ℚ)
    (hap : p.averageprice = some ap) :
    Except.map (fun ol => (ol.lastTradedQuantity, ol.lastTradedPrice))
        (mapOrder p cashed action) = .ok (p.qtytradedtoday.getD 0, ap / 100)
    ∧ (∀ (zd : ZPayload) (req : Option ZBlitzReq),
        (toBlitzOrderlogAdapter zd req).lastTradedQuantity = zd.filled_quantity
        ∧ (toBlitzOrderlogAdapter zd req).lastTradedPrice = zd.average_price) := by
  constructor
  · simp [mapOrder, hap, Except.map]
  · intro zd req
    cases req <;> simp [toBlitzOrderlogAdapter]

/-- C3 witness. -/
theorem spec_C3_witness :
    Except.map (fun ol => (ol.lastTradedQuantity, ol.lastTradedPrice))
        (mapOrder c3Payload none (some "PLACE_ORDER")) = .ok ((0 : Int), (0 : ℚ)) := by
  have h := spec_C3_last_traded_fields_copied_not_derived
    c3Payload none (some "PLACE_ORDER") 0 rfl
  simpa using h.1

/-- C3 counterexample: the TRADED update of `c3Payload` is published with
status Filled, LastTradedQuantity = 0 and LastTradedPrice = 0, refuting the
claimed `LastTradedQuantity > 0 ∧ LastTradedPrice > 0` invariant for
published fill events. -/
theorem spec_C3_counterexample :
    ((onMessage pendingPlaceState c3Payload).2.1.map pubOrderStatus = [some "Filled"])
    ∧ ((onMessage pendingPlaceState c3Payload).2.1.map pubLastTradedQty = [some 0])
    ∧ ((onMessage pendingPlaceState c3Payload).2.1.map pubLastTradedPrice = [some 0]) := by
  refine ⟨by decide, by decide, ?_⟩
  have h : (onMessage pendingPlaceState c3Payload).2.1.map pubLastTradedPrice
      = [some ((0 : ℚ) / 100)] := rfl
  rw [h]
  norm_num

/-- C1: the early websocket update for B1 is parked, not discarded; but when
`recordPlacement` happens (REST success for L1 ↔ B1), the replay block
crashes on the missing `pending_lock` attribute, the `except` handler
publishes a spurious Rejected event for L1, and the parked update is never
replayed — instead of the claimed exactly-one replayed publication. -/
theorem spec_C1_parked_update_never_replayed :
    (zOnOrderUpdate ZState.empty c1Update).2 = []
    ∧ dget (zOnOrderUpdate ZState.empty c1Update).1.pendingWsUpdates "B1" = some c1Update
    ∧ ((zHandlePlaceOrder (zOnOrderUpdate ZState.empty c1Update).1 c1Req
          (.ok "B1") true "E1").2.map zPubStatus = ["Rejected"])
    ∧ ((zHandlePlaceOrder (zOnOrderUpdate ZState.empty c1Update).1 c1Req
          (.ok "B1") true "E1").2.map zPubBlitzId = ["L1"])
    ∧ dget (zHandlePlaceOrder (zOnOrderUpdate ZState.empty c1Update).1 c1Req
          (.ok "B1") true "E1").1.pendingWsUpdates "B1" = some c1Update := by
  decide

theorem mapStatus_new_or_rejected {s a : Option String} {v : String}
    (hv : v = "New" ∨ v = "Rejected") (h : mapStatus s a = some v) :
    pyUpper (pyStrip (pyStr a)) = "PLACE_ORDER" := by
  rcases s with _ | s0
  · simp [mapStatus] at h
  · by_cases he : s0 = ""
    · simp [mapStatus, he] at h
    · simp only [mapStatus, he, if_false] at h
      split_ifs at h
      all_goals first
        | assumption
        | (rcases hv with rfl | rfl <;> exact absurd h (by decide))

theorem cacheOwner_dput_preserve {cache : List (String × CachedReq)} {L k : String}
    {c2 : CachedReq}
    (hown : ∀ k' c, dget cache k' = some c → c.blitzAppOrderID = some L → k' = L)
    (hpres : c2.blitzAppOrderID = ((dget cache k).getD {}).blitzAppOrderID) :
    ∀ k' c, dget (dput cache k c2) k' = some c → c.blitzAppOrderID = some L → k' = L := by
  intro k' c hdg hblitz
  by_cases he : k' = k
  · subst he
    rw [dget_dput_self] at hdg
    injection hdg with hc
    subst hc
    rcases h0 : dget cache k' with _ | c0
    · rw [h0] at hpres
      simp only [Option.getD_none] at hpres
      rw [hpres] at hblitz
      cases hblitz
    · rw [h0] at hpres
      simp only [Option.getD_some] at hpres
      refine hown k' c0 h0 ?_
      rw [← hpres]
      exact hblitz
  · rw [dget_dput_ne _ _ _ _ he] at hdg
    exact hown k' c hdg hblitz

theorem nrCount_append (L : String) (ps qs : List MPub) :
    nrCount L (ps ++ qs) = nrCount L ps + nrCount L qs := by
  simp [nrCount, List.filter_append]

theorem isNRFor_order_true {L : String} {ol : MOrderLog} {src : String}
    (h : isNRFor L (MPub.order ol src) = true) :
    ol.blitzAppOrderID = some L
    ∧ (ol.orderStatus = some "New" ∨ ol.orderStatus = some "Rejected") := by
  simpa [isNRFor] using h

theorem mapOrder_ok_fields {p : MPayload} {cached : Option CachedReq}
    {a : Option String} {ol : MOrderLog}
    (hm : mapOrder p cached a = .ok ol) :
    ol.blitzAppOrderID = cached.bind (fun c => c.blitzAppOrderID)
    ∧ ol.orderStatus = mapStatus p.orderstatus a := by
  rcases hap : p.averageprice with _ | ap <;> simp [mapOrder, hap] at hm
  rw [← hm]
  exact ⟨rfl, rfl⟩

theorem notActPlace_of_none {st : MState} {L : String}
    (h : effAction st L = none) : ¬ actPlace st L := by
  unfold actPlace
  rw [h]
  decide

theorem processOrder_NRStep (st : MState) (p : MPayload) (k L : String) :
    NRStep L st (processOrder st p k).1 (processOrder st p k).2.1 := by
  intro hown
  cases hm : mapOrder p (dget st.blitzOrderCache k) (effAction st k) with
  | error e =>
    have hres : processOrder st p k = (st, [], true) := by simp [processOrder, hm]
    rw [hres]
    exact ⟨hown, fun h => h, by simp [nrCount], fun h => by simp [nrCount] at h⟩
  | ok ol =>
    have hfields := mapOrder_ok_fields hm
    have hc2 : ∀ k' c,
        dget (dput st.blitzOrderCache k
            { (dget st.blitzOrderCache k).getD {} with
              lastModifiedDateTime := p.lastmodifiedtime }) k' = some c →
          c.blitzAppOrderID = some L → k' = L :=
      cacheOwner_dput_preserve hown rfl
    by_cases htr : optTruthy ol.orderStatus
    · have hres1 : (processOrder st p k).2.1 = [MPub.order ol "WEBSOCKET"] := by
        simp [processOrder, hm, htr]
      have hres2 : (processOrder st p k).1.blitzOrderCache =
          dput st.blitzOrderCache k
            { (dget st.blitzOrderCache k).getD {} with
              lastModifiedDateTime := p.lastmodifiedtime } := by
        simp [processOrder, hm, htr]
      have hres3 : (processOrder st p k).1.blitzOrderAction =
          dput st.blitzOrderAction k none := by
        simp [processOrder, hm, htr]
      have heff : effAction (processOrder st p k).1 L =
          if L = k then none else effAction st L := by
        unfold effAction
        rw [hres3]
        by_cases h : L = k
        · subst h; simp [dget_dput_self]
        · simp [h, dget_dput_ne _ _ _ _ h]
      refine ⟨?_, ?_, ?_, ?_⟩
      · intro k' c h1 h2
        rw [hres2] at h1
        exact hc2 k' c h1 h2
      · intro h
        by_cases hLk : L = k
        · exact absurd h (notActPlace_of_none (by rw [heff]; simp [hLk]))
        · unfold actPlace at h ⊢
          rw [heff] at h
          simpa [hLk] using h
      · rw [hres1]
        by_cases hnr : isNRFor L (MPub.order ol "WEBSOCKET") <;> simp [nrCount, hnr]
      · rw [hres1]
        intro hcnt
        by_cases hnr : isNRFor L (MPub.order ol "WEBSOCKET")
        · obtain ⟨hb, hs⟩ := isNRFor_order_true hnr
          rw [hfields.1] at hb
          obtain ⟨c0, hc0, hcb⟩ := Option.bind_eq_some.mp hb
          have hkL : k = L := hown k c0 hc0 hcb
          have hplace : actPlace st L := by
            unfold actPlace
            rw [← hkL]
            rcases hs with hs | hs
            · exact mapStatus_new_or_rejected (Or.inl rfl)
                (by rw [hfields.2] at hs; exact hs)
            · exact mapStatus_new_or_rejected (Or.inr rfl)
                (by rw [hfields.2] at hs; exact hs)
          refine ⟨hplace, ?_⟩
          exact notActPlace_of_none (by rw [heff]; simp [hkL.symm])
        · simp [nrCount, hnr] at hcnt
    · have hres1 : (processOrder st p k).2.1 = [] := by simp [processOrder, hm, htr]
      have hres2 : (processOrder st p k).1.blitzOrderCache =
          dput st.blitzOrderCache k
            { (dget st.blitzOrderCache k).getD {} with
              lastModifiedDateTime := p.lastmodifiedtime } := by
        simp [processOrder, hm, htr]
      have hres3 : (processOrder st p k).1.blitzOrderAction = st.blitzOrderAction := by
        simp [processOrder, hm, htr]
      refine ⟨?_, ?_, ?_, ?_⟩
      · intro k' c h1 h2
        rw [hres2] at h1
        exact hc2 k' c h1 h2
      · intro h
        unfold actPlace effAction at h ⊢
        rw [hres3] at h
        exact h
      · rw [hres1]; simp [nrCount]
      · rw [hres1]; intro h; simp [nrCount] at h

theorem NRStep_refl (L : String) (st : MState) : NRStep L st st [] :=
  fun hown => ⟨hown, fun h => h, by simp [nrCount], fun h => by simp [nrCount] at h⟩

theorem NRStep_comp {L : String} {st st1 st2 : MState} {ps1 ps2 : List MPub}
    (h1 : NRStep L st st1 ps1) (h2 : NRStep L st1 st2 ps2) :
    NRStep L st st2 (ps1 ++ ps2) := by
  intro hown
  obtain ⟨o1, a1, c1, e1⟩ := h1 hown
  obtain ⟨o2, a2, c2, e2⟩ := h2 o1
  refine ⟨o2, fun h => a1 (a2 h), ?_, ?_⟩
  · rw [nrCount_append]
    rcases Nat.lt_or_ge (nrCount L ps1) 1 with hl | hg
    · have h0 : nrCount L ps1 = 0 := Nat.lt_one_iff.mp hl
      omega
    · have h1' : nrCount L ps1 = 1 := le_antisymm c1 hg
      have hnp : ¬ actPlace st1 L := (e1 h1').2
      have h20 : nrCount L ps2 = 0 := by
        rcases Nat.lt_or_ge (nrCount L ps2) 1 with hl2 | hg2
        · exact Nat.lt_one_iff.mp hl2
        · exact absurd (e2 (le_antisymm c2 hg2)).1 hnp
      omega
  · intro hsum
    rw [nrCount_append] at hsum
    rcases Nat.lt_or_ge (nrCount L ps1) 1 with hl | hg
    · have h0 : nrCount L ps1 = 0 := Nat.lt_one_iff.mp hl
      have h21 : nrCount L ps2 = 1 := by omega
      obtain ⟨hp1, hp2⟩ := e2 h21
      exact ⟨a1 hp1, hp2⟩
    · have h1' : nrCount L ps1 = 1 := le_antisymm c1 hg
      obtain ⟨hp1, hnp⟩ := e1 h1'
      have h20 : nrCount L ps2 = 0 := by
        rcases Nat.lt_or_ge (nrCount L ps2) 1 with hl2 | hg2
        · exact Nat.lt_one_iff.mp hl2
        · exact absurd (e2 (le_antisymm c2 hg2)).1 hnp
      refine ⟨hp1, fun hap2 => hnp (a2 hap2)⟩

theorem NRStep_system (L : String) (st : MState) (mt txt : String) :
    NRStep L st st [MPub.system mt txt] :=
  fun hown =>
    ⟨hown, fun h => h, by simp [nrCount, isNRFor],
     fun h => by simp [nrCount, isNRFor] at h⟩

theorem processOrder_NRStep_mapper (st : MState) (m : List (String × String))
    (p : MPayload) (k L : String) :
    NRStep L st (processOrder { st with orderIdMapper := m } p k).1
      (processOrder { st with orderIdMapper := m } p k).2.1 :=
  processOrder_NRStep { st with orderIdMapper := m } p k L

theorem onMessageOrders_NRStep (st : MState) (p : MPayload) (L : String) :
    NRStep L st (onMessageOrders st p).1 (onMessageOrders st p).2.1 := by
  simp only [onMessageOrders]
  split_ifs
  · exact processOrder_NRStep st p _ L
  · exact processOrder_NRStep_mapper st _ p _ L
  · exact NRStep_refl L st
  · exact NRStep_system L st _ _
  · exact NRStep_system L st _ _
  · exact NRStep_system L st _ _

theorem onMessage_NRStep (st : MState) (p : MPayload) (L : String) :
    NRStep L st (onMessage st p).1 (onMessage st p).2.1 := by
  simp only [onMessage]
  split_ifs with h1 h2 h3
  · exact NRStep_refl L st
  · exact NRStep_refl L st
  · exact onMessageOrders_NRStep st p L
  · exact onMessageOrders_NRStep st p L

theorem resyncProcess_NRStep (st : MState) (o : MPayload) (blitz : String)
    (cached : CachedReq) (L : String)
    (hc : dget st.blitzOrderCache blitz = some cached) :
    NRStep L st (resyncProcess st o blitz cached).2.1
      (resyncProcess st o blitz cached).2.2 := by
  intro hown
  have hc2 : ∀ k' c,
      dget (dput st.blitzOrderCache blitz
          { cached with lastModifiedDateTime := o.lastmodifiedtime }) k' = some c →
        c.blitzAppOrderID = some L → k' = L := by
    refine cacheOwner_dput_preserve hown ?_
    simp [hc]
  by_cases ha : (effAction st blitz).isNone
  · have hr1 : (resyncProcess st o blitz cached).2.2 = [] := by
      simp [resyncProcess, ha]
    have hr2 : (resyncProcess st o blitz cached).2.1.blitzOrderCache =
        dput st.blitzOrderCache blitz
          { cached with lastModifiedDateTime := o.lastmodifiedtime } := by
      simp [resyncProcess, ha]
    have hr3 : (resyncProcess st o blitz cached).2.1.blitzOrderAction =
        st.blitzOrderAction := by
      simp [resyncProcess, ha]
    refine ⟨?_, ?_, ?_, ?_⟩
    · intro k' c hdg hb; rw [hr2] at hdg; exact hc2 k' c hdg hb
    · intro h; unfold actPlace effAction at h ⊢; rw [hr3] at h; exact h
    · rw [hr1]; simp [nrCount]
    · rw [hr1]; intro h; simp [nrCount] at h
  · cases hm : mapOrder o (some { cached with lastModifiedDateTime := o.lastmodifiedtime })
        (effAction st blitz) with
    | error e =>
      have hr1 : (resyncProcess st o blitz cached).2.2 = [] := by
        simp [resyncProcess, ha, hm]
      have hr2 : (resyncProcess st o blitz cached).2.1.blitzOrderCache =
          dput st.blitzOrderCache blitz
            { cached with lastModifiedDateTime := o.lastmodifiedtime } := by
        simp [resyncProcess, ha, hm]
      have hr3 : (resyncProcess st o blitz cached).2.1.blitzOrderAction =
          st.blitzOrderAction := by
        simp [resyncProcess, ha, hm]
      refine ⟨?_, ?_, ?_, ?_⟩
      · intro k' c hdg hb; rw [hr2] at hdg; exact hc2 k' c hdg hb
      · intro h; unfold actPlace effAction at h ⊢; rw [hr3] at h; exact h
      · rw [hr1]; simp [nrCount]
      · rw [hr1]; intro h; simp [nrCount] at h
    | ok ol =>
      have hfields := mapOrder_ok_fields hm
      by_cases htr : optTruthy ol.orderStatus
      · have hr1 : (resyncProcess st o blitz cached).2.2 = [MPub.order ol "RE_SYNC"] := by
          simp [resyncProcess, ha, hm, htr]
        have hr2 : (resyncProcess st o blitz cached).2.1.blitzOrderCache =
            dput st.blitzOrderCache blitz
              { cached with lastModifiedDateTime := o.lastmodifiedtime } := by
          simp [resyncProcess, ha, hm, htr]
        have hr3 : (resyncProcess st o blitz cached).2.1.blitzOrderAction =
            dput st.blitzOrderAction blitz none := by
          simp [resyncProcess, ha, hm, htr]
        have heff : effAction (resyncProcess st o blitz cached).2.1 L =
            if L = blitz then none else effAction st L := by
          unfold effAction
          rw [hr3]
          by_cases h : L = blitz
          · subst h; simp [dget_dput_self]
          · simp [h, dget_dput_ne _ _ _ _ h]
        refine ⟨?_, ?_, ?_, ?_⟩
        · intro k' c hdg hb; rw [hr2] at hdg; exact hc2 k' c hdg hb
        · intro h
          by_cases hLk : L = blitz
          · exact absurd h (notActPlace_of_none (by rw [heff]; simp [hLk]))
          · unfold actPlace at h ⊢
            rw [heff] at h
            simpa [hLk] using h
        · rw [hr1]
          by_cases hnr : isNRFor L (MPub.order ol "RE_SYNC") <;> simp [nrCount, hnr]
        · rw [hr1]
          intro hcnt
          by_cases hnr : isNRFor L (MPub.order ol "RE_SYNC")
          · obtain ⟨hb, hs⟩ := isNRFor_order_true hnr
            rw [hfields.1] at hb
            simp only [Option.some_bind] at hb
            have hkL : blitz = L := hown blitz cached hc (by simpa using hb)
            have hplace : actPlace st L := by
              unfold actPlace
              rw [← hkL]
              rcases hs with hs | hs
              · exact mapStatus_new_or_rejected (Or.inl rfl)
                  (by rw [hfields.2] at hs; exact hs)
              · exact mapStatus_new_or_rejected (Or.inr rfl)
                  (by rw [hfields.2] at hs; exact hs)
            refine ⟨hplace, ?_⟩
            exact notActPlace_of_none (by rw [heff]; simp [hkL.symm])
          · simp [nrCount, hnr] at hcnt
      · have hr1 : (resyncProcess st o blitz cached).2.2 = [] := by
          simp [resyncProcess, ha, hm, htr]
        have hr2 : (resyncProcess st o blitz cached).2.1.blitzOrderCache =
            dput st.blitzOrderCache blitz
              { cached with lastModifiedDateTime := o.lastmodifiedtime } := by
          simp [resyncProcess, ha, hm, htr]
        have hr3 : (resyncProcess st o blitz cached).2.1.blitzOrderAction =
            st.blitzOrderAction := by
          simp [resyncProcess, ha, hm, htr]
        refine ⟨?_, ?_, ?_, ?_⟩
        · intro k' c hdg hb; rw [hr2] at hdg; exact hc2 k' c hdg hb
        · intro h; unfold actPlace effAction at h ⊢; rw [hr3] at h; exact h
        · rw [hr1]; simp [nrCount]
        · rw [hr1]; intro h; simp [nrCount] at h

theorem resyncStep_NRStep (st : MState) (o : MPayload) (L : String) :
    NRStep L st (resyncStep st o).2.1 (resyncStep st o).2.2 := by
  by_cases h1 : optTruthy (dget st.orderIdMapper (pyStr o.uniqueorderid))
  · cases hc : dget st.blitzOrderCache
        ((dget st.orderIdMapper (pyStr o.uniqueorderid)).getD "") with
    | none =>
      have hres : resyncStep st o = (false, st, []) := by simp [resyncStep, h1, hc]
      rw [hres]
      exact NRStep_refl L st
    | some cached =>
      have hres : resyncStep st o =
          resyncProcess st o
            ((dget st.orderIdMapper (pyStr o.uniqueorderid)).getD "") cached := by
        simp [resyncStep, h1, hc]
      rw [hres]
      exact resyncProcess_NRStep st o _ cached L hc
  · have hres : resyncStep st o = (false, st, []) := by simp [resyncStep, h1]
    rw [hres]
    exact NRStep_refl L st

theorem resyncOrders_NRStep (L : String) : ∀ (os : List MPayload) (st : MState),
    NRStep L st (resyncOrders st os).1 (resyncOrders st os).2 := by
  intro os
  induction os with
  | nil =>
    intro st
    simpa [resyncOrders] using NRStep_refl L st
  | cons o rest ih =>
    intro st
    by_cases hb : (resyncStep st o).1
    · have hres : resyncOrders st (o :: rest) = ((resyncStep st o).2.1, (resyncStep st o).2.2) := by
        simp [resyncOrders, hb]
      rw [hres]
      exact resyncStep_NRStep st o L
    · have hres : resyncOrders st (o :: rest) =
          ((resyncOrders (resyncStep st o).2.1 rest).1,
           (resyncStep st o).2.2 ++ (resyncOrders (resyncStep st o).2.1 rest).2) := by
        simp [resyncOrders, hb]
      rw [hres]
      exact NRStep_comp (resyncStep_NRStep st o L) (ih (resyncStep st o).2.1)

theorem resyncTick_NRStep (st : MState) (resp : Option (List MPayload)) (L : String) :
    NRStep L st (resyncTick st resp).1 (resyncTick st resp).2.1 := by
  by_cases h1 : anyPending st
  · cases resp with
    | none =>
      have hres : resyncTick st none = (st, [], true) := by simp [resyncTick, h1]
      rw [hres]
      exact NRStep_refl L st
    | some os =>
      by_cases he : os.isEmpty
      · have hres : resyncTick st (some os) = (st, [], true) := by simp [resyncTick, h1, he]
        rw [hres]
        exact NRStep_refl L st
      · have hres : resyncTick st (some os) =
            ((resyncOrders st os).1, (resyncOrders st os).2, true) := by
          simp [resyncTick, h1, he]
        rw [hres]
        exact resyncOrders_NRStep L os st
  · have hres : resyncTick st resp = (st, [], false) := by simp [resyncTick, h1]
    rw [hres]
    exact NRStep_refl L st

theorem stepEvent_NRStep (st : MState) (e : MEvent) (L : String) :
    NRStep L st (stepEvent st e).1 (stepEvent st e).2 := by
  cases e with
  | msg p => exact onMessage_NRStep st p L
  | resync resp => exact resyncTick_NRStep st resp L

theorem runTrace_NRStep (L : String) : ∀ (tr : List MEvent) (st : MState),
    NRStep L st (runTrace st tr).1 (runTrace st tr).2 := by
  intro tr
  induction tr with
  | nil =>
    intro st
    simpa [runTrace] using NRStep_refl L st
  | cons e rest ih =>
    intro st
    have hres : runTrace st (e :: rest) =
        ((runTrace (stepEvent st e).1 rest).1,
         (stepEvent st e).2 ++ (runTrace (stepEvent st e).1 rest).2) := by
      simp [runTrace]
    rw [hres]
    exact NRStep_comp (stepEvent_NRStep st e L) (ih (stepEvent st e).1)

theorem optTruthy_none : optTruthy none = false := rfl

theorem mapOrder_ok_of_avg {p : MPayload} {c : Option CachedReq} {a : Option String}
    (hap : p.averageprice.isSome) : ∃ ol, mapOrder p c a = .ok ol := by
  obtain ⟨ap, hap'⟩ := Option.isSome_iff_exists.mp hap
  cases hmo : mapOrder p c a with
  | ok ol => exact ⟨ol, rfl⟩
  | error e => simp [mapOrder, hap'] at hmo

theorem effAction_singleton {st : MState} {L : String} {v : Option String}
    (h : st.blitzOrderAction = [(L, v)]) : effAction st L = v := by
  unfold effAction
  rw [h]
  simp [dget]

theorem confirm_msg_left (L B : String) (hB : B ≠ "") (hL : L ≠ "") (st : MState)
    (p : MPayload) (hp : confirmPayload B p) (hleft : leftSt L B st) :
    rightSt L B (onMessage st p).1 ∧ nrCount L (onMessage st p).2.1 = 1 := by
  obtain ⟨hps, hpid, hptag, hcs, hap⟩ := hp
  obtain ⟨hm, ⟨c, hcache, hcb⟩, hact⟩ := hleft
  have heff : effAction st L = some "PLACE_ORDER" := effAction_singleton hact
  obtain ⟨ol, hmo⟩ := mapOrder_ok_of_avg (c := dget st.blitzOrderCache L)
      (a := effAction st L) hap
  have hf := mapOrder_ok_fields hmo
  have hob : ol.blitzAppOrderID = some L := by
    rw [hf.1, hcache]
    simpa using hcb
  have hos : ol.orderStatus = some "New" ∨ ol.orderStatus = some "Rejected" := by
    rw [hf.2, heff]
    rcases hcs with h | h | h <;> rw [h]
    · exact Or.inl (by decide)
    · exact Or.inr (by decide)
    · exact Or.inr (by decide)
  have htr : optTruthy ol.orderStatus = true := by
    rcases hos with h | h <;> simp [optTruthy, h]
  have hBt : optTruthy (some B) = true := by simp [optTruthy, hB]
  have hLt : optTruthy (some L) = true := by simp [optTruthy, hL]
  have hres : onMessage st p =
      ({ st with
         blitzOrderCache :=
           dput st.blitzOrderCache L
             { (dget st.blitzOrderCache L).getD {} with
               lastModifiedDateTime := p.lastmodifiedtime }
         blitzOrderAction := dput st.blitzOrderAction L none },
       [MPub.order ol "WEBSOCKET"], false) := by
    simp [onMessage, hps, optTruthy_none, onMessageOrders, hpid, hBt, hm, hLt,
      processOrder, hmo, htr]
  rw [hres]
  refine ⟨⟨hm, ?_, ?_⟩, ?_⟩
  · refine ⟨{ (dget st.blitzOrderCache L).getD {} with
              lastModifiedDateTime := p.lastmodifiedtime }, dget_dput_self _ _ _, ?_⟩
    rw [hcache]
    simpa using hcb
  · rw [hact]
    simp [dput]
  · rcases hos with h | h <;> simp [nrCount, isNRFor, hob, h]

theorem confirm_msg_right (L B : String) (hB : B ≠ "") (hL : L ≠ "") (st : MState)
    (p : MPayload) (hp : confirmPayload B p) (hright : rightSt L B st) :
    rightSt L B (onMessage st p).1 ∧ nrCount L (onMessage st p).2.1 = 0 := by
  obtain ⟨hps, hpid, hptag, hcs, hap⟩ := hp
  obtain ⟨hm, ⟨c, hcache, hcb⟩, hact⟩ := hright
  have heff : effAction st L = none := effAction_singleton hact
  obtain ⟨ol, hmo⟩ := mapOrder_ok_of_avg (c := dget st.blitzOrderCache L)
      (a := effAction st L) hap
  have hf := mapOrder_ok_fields hmo
  have hos : ol.orderStatus = none := by
    rw [hf.2, heff]
    rcases hcs with h | h | h <;> rw [h] <;> decide
  have htr : optTruthy ol.orderStatus = false := by simp [optTruthy, hos]
  have hBt : optTruthy (some B) = true := by simp [optTruthy, hB]
  have hLt : optTruthy (some L) = true := by simp [optTruthy, hL]
  have hres : onMessage st p =
      ({ st with
         blitzOrderCache :=
           dput st.blitzOrderCache L
             { (dget st.blitzOrderCache L).getD {} with
               lastModifiedDateTime := p.lastmodifiedtime } },
       [], false) := by
    simp [onMessage, hps, optTruthy_none, onMessageOrders, hpid, hBt, hm, hLt,
      processOrder, hmo, htr]
  rw [hres]
  refine ⟨⟨hm, ?_, ?_⟩, ?_⟩
  · refine ⟨{ (dget st.blitzOrderCache L).getD {} with
              lastModifiedDateTime := p.lastmodifiedtime }, dget_dput_self _ _ _, ?_⟩
    rw [hcache]
    simpa using hcb
  · exact hact
  · simp [nrCount]

theorem confirm_resyncStep_left (L B : String) (_hB : B ≠ "") (hL : L ≠ "")
    (st : MState) (o : MPayload) (hp : confirmPayload B o) (hleft : leftSt L B st) :
    (resyncStep st o).1 = false ∧ rightSt L B (resyncStep st o).2.1
    ∧ nrCount L (resyncStep st o).2.2 = 1 := by
  obtain ⟨hps, hpid, hptag, hcs, hap⟩ := hp
  obtain ⟨hm, ⟨c, hcache, hcb⟩, hact⟩ := hleft
  have heff : effAction st L = some "PLACE_ORDER" := effAction_singleton hact
  have hLt : optTruthy (some L) = true := by simp [optTruthy, hL]
  obtain ⟨ol, hmo⟩ := mapOrder_ok_of_avg
      (c := some { c with lastModifiedDateTime := o.lastmodifiedtime })
      (a := effAction st L) hap
  have hf := mapOrder_ok_fields hmo
  have hob : ol.blitzAppOrderID = some L := by
    rw [hf.1]
    simpa using hcb
  have hos : ol.orderStatus = some "New" ∨ ol.orderStatus = some "Rejected" := by
    rw [hf.2, heff]
    rcases hcs with h | h | h <;> rw [h]
    · exact Or.inl (by decide)
    · exact Or.inr (by decide)
    · exact Or.inr (by decide)
  have htr : optTruthy ol.orderStatus = true := by
    rcases hos with h | h <;> simp [optTruthy, h]
  rw [heff] at hmo
  have hres : resyncStep st o =
      (false,
       { st with
         blitzOrderCache :=
           dput st.blitzOrderCache L { c with lastModifiedDateTime := o.lastmodifiedtime }
         blitzOrderAction := dput st.blitzOrderAction L none },
       [MPub.order ol "RE_SYNC"]) := by
    simp [resyncStep, hpid, pyStr, hm, hLt, resyncProcess, hcache, heff, hmo, htr]
  rw [hres]
  refine ⟨rfl, ⟨hm, ?_, ?_⟩, ?_⟩
  · exact ⟨{ c with lastModifiedDateTime := o.lastmodifiedtime },
      dget_dput_self _ _ _, by simpa using hcb⟩
  · rw [hact]
    simp [dput]
  · rcases hos with h | h <;> simp [nrCount, isNRFor, hob, h]

theorem confirm_resyncStep_right (L B : String) (_hB : B ≠ "") (hL : L ≠ "")
    (st : MState) (o : MPayload) (hp : confirmPayload B o) (hright : rightSt L B st) :
    (resyncStep st o).1 = false ∧ rightSt L B (resyncStep st o).2.1
    ∧ nrCount L (resyncStep st o).2.2 = 0 := by
  obtain ⟨hps, hpid, hptag, hcs, hap⟩ := hp
  obtain ⟨hm, ⟨c, hcache, hcb⟩, hact⟩ := hright
  have heff : effAction st L = none := effAction_singleton hact
  have hLt : optTruthy (some L) = true := by simp [optTruthy, hL]
  have hres : resyncStep st o =
      (false,
       { st with
         blitzOrderCache :=
           dput st.blitzOrderCache L { c with lastModifiedDateTime := o.lastmodifiedtime } },
       []) := by
    simp [resyncStep, hpid, pyStr, hm, hLt, resyncProcess, hcache, heff]
  rw [hres]
  refine ⟨rfl, ⟨hm, ?_, hact⟩, by simp [nrCount]⟩
  exact ⟨{ c with lastModifiedDateTime := o.lastmodifiedtime },
    dget_dput_self _ _ _, by simpa using hcb⟩

theorem confirm_resyncOrders_right (L B : String) (hB : B ≠ "") (hL : L ≠ "") :
    ∀ (os : List MPayload) (st : MState), (∀ p ∈ os, confirmPayload B p) →
      rightSt L B st →
      rightSt L B (resyncOrders st os).1 ∧ nrCount L (resyncOrders st os).2 = 0 := by
  intro os
  induction os with
  | nil =>
    intro st _ hr
    exact ⟨by simpa [resyncOrders] using hr, by simp [resyncOrders, nrCount]⟩
  | cons o rest ih =>
    intro st hconf hr
    obtain ⟨hb, hst, hcnt⟩ :=
      confirm_resyncStep_right L B hB hL st o (hconf o (by simp)) hr
    have hres : resyncOrders st (o :: rest) =
        ((resyncOrders (resyncStep st o).2.1 rest).1,
         (resyncStep st o).2.2 ++ (resyncOrders (resyncStep st o).2.1 rest).2) := by
      simp [resyncOrders, hb]
    rw [hres]
    obtain ⟨hst2, hcnt2⟩ :=
      ih (resyncStep st o).2.1 (fun p hp => hconf p (by simp [hp])) hst
    exact ⟨hst2, by rw [nrCount_append, hcnt, hcnt2]⟩

theorem confirm_resyncOrders_left (L B : String) (hB : B ≠ "") (hL : L ≠ "")
    (o : MPayload) (rest : List MPayload) (st : MState)
    (hconf : ∀ p ∈ o :: rest, confirmPayload B p) (hleft : leftSt L B st) :
    rightSt L B (resyncOrders st (o :: rest)).1
    ∧ nrCount L (resyncOrders st (o :: rest)).2 = 1 := by
  obtain ⟨hb, hst, hcnt⟩ :=
    confirm_resyncStep_left L B hB hL st o (hconf o (by simp)) hleft
  have hres : resyncOrders st (o :: rest) =
      ((resyncOrders (resyncStep st o).2.1 rest).1,
       (resyncStep st o).2.2 ++ (resyncOrders (resyncStep st o).2.1 rest).2) := by
    simp [resyncOrders, hb]
  rw [hres]
  obtain ⟨hst2, hcnt2⟩ := confirm_resyncOrders_right L B hB hL rest
    (resyncStep st o).2.1 (fun p hp => hconf p (by simp [hp])) hst
  exact ⟨hst2, by rw [nrCount_append, hcnt, hcnt2]⟩

theorem confirm_step_left (L B : String) (hB : B ≠ "") (hL : L ≠ "")
    (st : MState) (e : MEvent) (hce : confirmEvent B e) (hleft : leftSt L B st) :
    (reportsEvent e = true →
       rightSt L B (stepEvent st e).1 ∧ nrCount L (stepEvent st e).2 = 1)
    ∧ (reportsEvent e = false →
       leftSt L B (stepEvent st e).1 ∧ nrCount L (stepEvent st e).2 = 0) := by
  cases e with
  | msg p =>
    refine ⟨fun _ => confirm_msg_left L B hB hL st p hce hleft,
      fun h => by simp [reportsEvent] at h⟩
  | resync resp =>
    have hpend : anyPending st = true := by
      simp [anyPending, hleft.2.2]
    cases resp with
    | none =>
      have hres : resyncTick st none = (st, [], true) := by simp [resyncTick, hpend]
      refine ⟨fun h => by simp [reportsEvent] at h, fun _ => ?_⟩
      constructor
      · show leftSt L B (resyncTick st none).1
        rw [hres]
        exact hleft
      · show nrCount L (resyncTick st none).2.1 = 0
        rw [hres]
        simp [nrCount]
    | some os =>
      cases os with
      | nil =>
        have hres : resyncTick st (some []) = (st, [], true) := by
          simp [resyncTick, hpend]
        refine ⟨fun h => by simp [reportsEvent] at h, fun _ => ?_⟩
        constructor
        · show leftSt L B (resyncTick st (some [])).1
          rw [hres]
          exact hleft
        · show nrCount L (resyncTick st (some [])).2.1 = 0
          rw [hres]
          simp [nrCount]
      | cons o rest =>
        have hres : resyncTick st (some (o :: rest)) =
            ((resyncOrders st (o :: rest)).1, (resyncOrders st (o :: rest)).2, true) := by
          simp [resyncTick, hpend]
        refine ⟨fun _ => ?_, fun h => by simp [reportsEvent] at h⟩
        obtain ⟨hst, hcnt⟩ := confirm_resyncOrders_left L B hB hL o rest st hce hleft
        constructor
        · show rightSt L B (resyncTick st (some (o :: rest))).1
          rw [hres]
          exact hst
        · show nrCount L (resyncTick st (some (o :: rest))).2.1 = 1
          rw [hres]
          exact hcnt

theorem confirm_step_right (L B : String) (hB : B ≠ "") (hL : L ≠ "")
    (st : MState) (e : MEvent) (hce : confirmEvent B e) (hright : rightSt L B st) :
    rightSt L B (stepEvent st e).1 ∧ nrCount L (stepEvent st e).2 = 0 := by
  cases e with
  | msg p => exact confirm_msg_right L B hB hL st p hce hright
  | resync resp =>
    have hpend : anyPending st = false := by
      simp [anyPending, hright.2.2]
    have hres : resyncTick st resp = (st, [], false) := by simp [resyncTick, hpend]
    constructor
    · show rightSt L B (resyncTick st resp).1
      rw [hres]
      exact hright
    · show nrCount L (resyncTick st resp).2.1 = 0
      rw [hres]
      simp [nrCount]

theorem confirm_run (L B : String) (hB : B ≠ "") (hL : L ≠ "") :
    ∀ (tr : List MEvent), (∀ e ∈ tr, confirmEvent B e) →
      ∀ st : MState,
        (leftSt L B st →
          nrCount L (runTrace st tr).2 = (if tr.any reportsEvent then 1 else 0))
        ∧ (rightSt L B st → nrCount L (runTrace st tr).2 = 0) := by
  intro tr
  induction tr with
  | nil =>
    intro _ st
    constructor <;> intro _ <;> simp [runTrace, nrCount]
  | cons e rest ih =>
    intro hconf st
    have hce : confirmEvent B e := hconf e (by simp)
    have hcr : ∀ x ∈ rest, confirmEvent B x := fun x hx => hconf x (by simp [hx])
    have hres : runTrace st (e :: rest) =
        ((runTrace (stepEvent st e).1 rest).1,
         (stepEvent st e).2 ++ (runTrace (stepEvent st e).1 rest).2) := by
      simp [runTrace]
    constructor
    · intro hleft
      rw [hres]
      by_cases hrep : reportsEvent e
      · obtain ⟨hst, hcnt⟩ := (confirm_step_left L B hB hL st e hce hleft).1 hrep
        have hrest := (ih hcr (stepEvent st e).1).2 hst
        simp only [nrCount_append, hcnt, hrest]
        simp [List.any_cons, hrep]
      · obtain ⟨hst, hcnt⟩ := (confirm_step_left L B hB hL st e hce hleft).2
          (by simpa using hrep)
        have hrest := (ih hcr (stepEvent st e).1).1 hst
        simp only [nrCount_append, hcnt, hrest]
        simp [List.any_cons, hrep]
    · intro hright
      rw [hres]
      obtain ⟨hst, hcnt⟩ := confirm_step_right L B hB hL st e hce hright
      have hrest := (ih hcr (stepEvent st e).1).2 hst
      simp only [nrCount_append, hcnt, hrest]

theorem mapStatus_err_place {s0 : String}
    (h : pyUpper (pyStrip s0) = "ERROR" ∨ pyUpper (pyStrip s0) = "REJECTED") :
    mapStatus (some s0) (some "PLACE_ORDER") = some "Rejected" := by
  have hne : ¬ s0 = "" := by
    intro he
    subst he
    rcases h with h | h <;> exact absurd h (by decide)
  have ha : pyUpper (pyStrip (pyStr (some "PLACE_ORDER"))) = "PLACE_ORDER" := by decide
  rcases h with h | h <;> simp [mapStatus, hne, h, ha]

theorem nrCount_eq_zero_iff {L : String} {ps : List MPub} :
    nrCount L ps = 0 ↔ ∀ pub ∈ ps, isNRFor L pub = false := by
  simp [nrCount, List.length_eq_zero, List.filter_eq_nil_iff]

theorem isNewFor_imp_isNRFor {L : String} {pub : MPub}
    (h : isNewFor L pub = true) : isNRFor L pub = true := by
  cases pub with
  | order ol src =>
    simp [isNewFor] at h
    simp [isNRFor, h.1, h.2]
  | system a b => simp [isNewFor] at h

theorem nr_zero_of_notPlace {L : String} {st st' : MState} {ps : List MPub}
    (h : NRStep L st st' ps) (hown : cacheOwner st L)
    (hnp : ¬ actPlace st L) : nrCount L ps = 0 := by
  obtain ⟨_, _, hc, he⟩ := h hown
  rcases Nat.lt_or_ge (nrCount L ps) 1 with hl | hg
  · exact Nat.lt_one_iff.mp hl
  · exact absurd (he (le_antisymm hc hg)).1 hnp

theorem cacheOwner_of_singleton {L : String} {v : CachedReq} {st : MState}
    (hec : st.blitzOrderCache = [(L, v)]) : cacheOwner st L := by
  intro k c hdg hb
  rw [hec] at hdg
  by_cases hk : L = k
  · exact hk.symm
  · simp [dget, hk] at hdg

/-- C2: for one PLACE_ORDER command handled from a fresh state, over the
synchronous rejection path, the async feed path and the resync loop
together: (1) at most one terminal New/Rejected event for L is ever
published, whatever the subsequent trace delivers; (2) a synchronous REST
rejection publishes exactly one terminal event and no New is ever published
for L afterwards (never both a sync rejection and a later async success);
(3) on REST success, once the feed/resync delivers the broker's terminal
place report, exactly one terminal event is published. -/
theorem spec_C2_exactly_one_terminal_publish
    (req : BlitzReq) (L : String) (rest : RestOutcome) (tr : List MEvent)
    (hL : req.blitzAppOrderID = some L) (hLne : L ≠ "")
    (hrest : restErrOk rest) :
    nrCount L (placeRun req rest tr) ≤ 1
    ∧ (∀ m oid s, rest = .apiError m oid s →
        nrCount L (placeRun req rest tr) = 1
        ∧ ∀ pub ∈ placeRun req rest tr, isNewFor L pub = false)
    ∧ (∀ B, rest = .accepted (some B) → B ≠ "" →
        (∀ e ∈ tr, confirmEvent B e) → tr.any reportsEvent = true →
        nrCount L (placeRun req rest tr) = 1) := by
  have hLt : optTruthy (some L) = true := by simp [optTruthy, hLne]
  cases rest with
  | preMapError =>
    have hr0 : handlePlaceOrder MState.empty req "PLACE_ORDER" .preMapError =
        ({ orderIdMapper := [], blitzToMotilal := [],
           blitzOrderCache := [(L, cachedOfReq req)],
           blitzOrderAction := [(L, some "PLACE_ORDER")] }, []) := by
      simp [handlePlaceOrder, MState.empty, hL, hLt, dput]
    have hown : cacheOwner (handlePlaceOrder MState.empty req "PLACE_ORDER" .preMapError).1 L :=
      cacheOwner_of_singleton (by rw [hr0])
    have hstep := runTrace_NRStep L tr
      (handlePlaceOrder MState.empty req "PLACE_ORDER" .preMapError).1
    obtain ⟨_, _, hc, _⟩ := hstep hown
    refine ⟨?_, ?_, ?_⟩
    · unfold placeRun
      have hp2 : (handlePlaceOrder MState.empty req "PLACE_ORDER" .preMapError).2 = [] := by
        rw [hr0]
      rw [nrCount_append, hp2]
      simpa [nrCount] using hc
    · intro m oid s h
      cases h
    · intro B h
      cases h
  | apiError m0 o0 s0 =>
    have hact1 : (handlePlaceOrder MState.empty req "PLACE_ORDER"
        (.apiError m0 o0 s0)).1.blitzOrderAction = [(L, none)] := by
      by_cases hto : optTruthy o0
      · simp [handlePlaceOrder, MState.empty, hL, hLt, hto, dput, pyStr]
      · simp [handlePlaceOrder, MState.empty, hL, hLt, hto, dput, pyStr]
    have hec1 : (handlePlaceOrder MState.empty req "PLACE_ORDER"
        (.apiError m0 o0 s0)).1.blitzOrderCache = [(L, cachedOfReq req)] := by
      by_cases hto : optTruthy o0
      · simp [handlePlaceOrder, MState.empty, hL, hLt, hto, dput, pyStr]
      · simp [handlePlaceOrder, MState.empty, hL, hLt, hto, dput, pyStr]
    have hpub1 : ∃ ol : MOrderLog,
        (handlePlaceOrder MState.empty req "PLACE_ORDER" (.apiError m0 o0 s0)).2 =
          [MPub.order ol "PLACE_ORDER"]
        ∧ ol.blitzAppOrderID = some L ∧ ol.orderStatus = some "Rejected" := by
      by_cases hto : optTruthy o0
      · refine ⟨errorToOrderlog (m0.getD "Order rejected") (some req)
            (some (s0.getD "Rejected")) (some "PLACE_ORDER"), ?_, ?_, ?_⟩
        · simp [handlePlaceOrder, MState.empty, hL, hLt, hto, dput, pyStr]
        · simp [errorToOrderlog, hL]
        · simp [errorToOrderlog, mapStatus_err_place (hrest hto)]
      · refine ⟨orderlogError (m0.getD "Order rejected") (some req), ?_, ?_, ?_⟩
        · simp [handlePlaceOrder, MState.empty, hL, hLt, hto, dput, pyStr]
        · simp [orderlogError, hL]
        · simp [orderlogError]
    obtain ⟨ol, hpub, hob, hos⟩ := hpub1
    have hown : cacheOwner (handlePlaceOrder MState.empty req "PLACE_ORDER"
        (.apiError m0 o0 s0)).1 L := cacheOwner_of_singleton hec1
    have hnp : ¬ actPlace (handlePlaceOrder MState.empty req "PLACE_ORDER"
        (.apiError m0 o0 s0)).1 L := by
      refine notActPlace_of_none ?_
      unfold effAction
      rw [hact1]
      simp [dget]
    have hzero := nr_zero_of_notPlace
      (runTrace_NRStep L tr (handlePlaceOrder MState.empty req "PLACE_ORDER"
        (.apiError m0 o0 s0)).1) hown hnp
    have hcnt : nrCount L (placeRun req (.apiError m0 o0 s0) tr) = 1 := by
      unfold placeRun
      rw [nrCount_append, hpub, hzero]
      simp [nrCount, isNRFor, hob, hos]
    refine ⟨le_of_eq hcnt, ?_, ?_⟩
    · intro m oid s h
      refine ⟨hcnt, ?_⟩
      intro pub hmem
      unfold placeRun at hmem
      rw [hpub] at hmem
      rcases List.mem_append.mp hmem with hmem | hmem
      · simp at hmem
        subst hmem
        simp [isNewFor, hos]
      · by_contra hnew
        have hnew' : isNewFor L pub = true := by
          cases hnw : isNewFor L pub
          · exact absurd hnw hnew
          · rfl
        have := nrCount_eq_zero_iff.mp hzero pub hmem
        rw [isNewFor_imp_isNRFor hnew'] at this
        cases this
    · intro B h
      cases h
  | accepted o0 =>
    have hpub0 : (handlePlaceOrder MState.empty req "PLACE_ORDER" (.accepted o0)).2 = [] := by
      by_cases hto : optTruthy o0
      · simp [handlePlaceOrder, MState.empty, hL, hLt, hto, dput, pyStr]
      · simp [handlePlaceOrder, MState.empty, hL, hLt, hto, dput, pyStr]
    have hec1 : (handlePlaceOrder MState.empty req "PLACE_ORDER"
        (.accepted o0)).1.blitzOrderCache = [(L, cachedOfReq req)] := by
      by_cases hto : optTruthy o0
      · simp [handlePlaceOrder, MState.empty, hL, hLt, hto, dput, pyStr]
      · simp [handlePlaceOrder, MState.empty, hL, hLt, hto, dput, pyStr]
    have hown : cacheOwner (handlePlaceOrder MState.empty req "PLACE_ORDER"
        (.accepted o0)).1 L := cacheOwner_of_singleton hec1
    have hstep := runTrace_NRStep L tr
      (handlePlaceOrder MState.empty req "PLACE_ORDER" (.accepted o0)).1
    obtain ⟨_, _, hc, _⟩ := hstep hown
    refine ⟨?_, ?_, ?_⟩
    · unfold placeRun
      rw [nrCount_append, hpub0]
      simpa [nrCount] using hc
    · intro m oid s h
      cases h
    · intro B hBeq hBne hconf hrep
      injection hBeq with ho
      subst ho
      have hBt : optTruthy (some B) = true := by simp [optTruthy, hBne]
      have hr0 : handlePlaceOrder MState.empty req "PLACE_ORDER" (.accepted (some B)) =
          ({ orderIdMapper := [(B, L)], blitzToMotilal := [(L, B)],
             blitzOrderCache := [(L, cachedOfReq req)],
             blitzOrderAction := [(L, some "PLACE_ORDER")] }, []) := by
        simp [handlePlaceOrder, MState.empty, hL, hLt, hBt, dput, pyStr]
      have hleft : leftSt L B (handlePlaceOrder MState.empty req "PLACE_ORDER"
          (.accepted (some B))).1 := by
        rw [hr0]
        refine ⟨by simp [dget], ⟨cachedOfReq req, by simp [dget], by simp [cachedOfReq, hL]⟩, rfl⟩
      have hcrun := (confirm_run L B hBne hLne tr hconf
        (handlePlaceOrder MState.empty req "PLACE_ORDER" (.accepted (some B))).1).1 hleft
      unfold placeRun
      rw [nrCount_append, hpub0, hcrun]
      simp [nrCount, hrep]

/-- C2 witness: a concrete accepted placement L1 ↔ B1 followed by one
confirmation push yields exactly one terminal publication for L1. -/
theorem spec_C2_witness :
    c2Req.blitzAppOrderID = some "L1" ∧ "L1" ≠ "" ∧ restErrOk (.accepted (some "B1"))
    ∧ nrCount "L1" (placeRun c2Req (.accepted (some "B1")) [MEvent.msg c2Payload]) = 1 := by
  refine ⟨rfl, by decide, trivial, ?_⟩
  refine (spec_C2_exactly_one_terminal_publish c2Req "L1" (.accepted (some "B1"))
    [MEvent.msg c2Payload] rfl (by decide) trivial).2.2 "B1" rfl (by decide) ?_ ?_
  · intro e he
    have : e = MEvent.msg c2Payload := by simpa using he
    subst this
    exact ⟨rfl, rfl, rfl, Or.inl rfl, by decide⟩
  · rfl

end Adapters
